import Mathlib

/-!
# Lifecycle controller for the `Xdb` resource

A shallow embedding of `pkg/controller/xdb.go` and `pkg/controller/dormant_database.go`.

* Go pointers are `Option`s (`nil` is `none`), Go `map[string]string` values are
  `Option StrMap` (`nil` map is `none`), `reflect.DeepEqual` is Lean equality.
* Every call that leaves the controller (resource store, validator, infrastructure helpers,
  backup scheduler, monitor, event recorder) is answered by an environment `Env σ` acting on an
  arbitrary cluster state `σ`, and is recorded, with its answer, in a log of `Step`s. Writes to
  the process log (`log.Errorln`) are not recorded.
* A controller method is a value of `M σ α`: run from a cluster state it yields the returned
  value, the state it leaves and the steps it took. A Go result of type `error` is an
  `Option KErr`, a result `(value, error)` is a `Res`.
-/

namespace XdbController

/-! ## Data model -/

/-- Go `map[string]string` with at most one entry per key. -/
abbrev StrMap := AList (fun _ : String => String)

/-- Two maps are equal when their entries are; this instance evaluates by computation. -/
instance instDecidableEqStrMap : DecidableEq StrMap := fun a b =>
  decidable_of_iff (a.entries = b.entries) AList.ext_iff.symm

/-- Go map index expression `m[k]` on a possibly nil map: the zero value when absent. -/
def mapIndex (m : Option StrMap) (k : String) : String :=
  match m with
  | none => ""
  | some m => (m.lookup k).getD ""

/-- Go two-value map index `v, found := m[k]` on a possibly nil map. -/
def mapFind (m : Option StrMap) (k : String) : Option String :=
  match m with
  | none => none
  | some m => m.lookup k

/-- Go `error` value: its message, and whether `kerr.IsNotFound` holds of it. -/
structure KErr where
  msg : String
  notFound : Bool
deriving DecidableEq, Repr

/-- Go `errors.New`. -/
def errorsNew (message : String) : KErr := ⟨message, false⟩

/-- Label key `api.LabelDatabaseKind`, declared in apimachinery; no statement depends on the
value beyond its being different from `LabelDatabaseName`. -/
def LabelDatabaseKind : String := "kubedb.com/kind"

/-- Label key `api.LabelDatabaseName`, declared in apimachinery. -/
def LabelDatabaseName : String := "kubedb.com/name"

/-- Kind name `api.ResourceKindXdb`, declared in apimachinery. -/
def ResourceKindXdb : String := "Xdb"

/-- Annotation key `api.XdbInitSpec`, declared in apimachinery. -/
def XdbInitSpec : String := "xdb.kubedb.com/init"

/-- The annotation key literal `"kubedb.com/ignore"` used by `create` and `pause`. -/
def ignoreKey : String := "kubedb.com/ignore"

/-- Type `api.SnapshotSourceSpec`: the fields read by `initialize`. -/
structure SnapshotSourceSpec where
  Namespace : String
  Name : String
deriving DecidableEq, Repr

/-- Type `api.InitSpec`: the snapshot-based bootstrap source, a pointer that may be nil. -/
structure InitSpec where
  SnapshotSource : Option SnapshotSourceSpec
deriving DecidableEq, Repr

/-- Type `core.SecretVolumeSource`: the field the controller writes. -/
structure SecretVolumeSource where
  SecretName : String
deriving DecidableEq, Repr

/-- Modelled from the spec: type `api.BackupScheduleSpec` is declared in apimachinery and the
controller only compares its values; the spec describes it as a cron expression and a target. -/
structure BackupScheduleSpec where
  CronExpression : String
  Target : String
deriving DecidableEq, Repr

/-- Modelled from the spec: type `api.MonitorSpec` is declared in apimachinery and the
controller only compares its values; the spec describes it as a monitor configuration. -/
structure MonitorSpec where
  Agent : String
deriving DecidableEq, Repr

/-- Type `api.XdbSpec`: the fields the controller reads, which are the ones the spec lists. -/
structure XdbSpec where
  Init : Option InitSpec
  DatabaseSecret : Option SecretVolumeSource
  BackupSchedule : Option BackupScheduleSpec
  Monitor : Option MonitorSpec
  DoNotPause : Bool
deriving DecidableEq, Repr

/-- Modelled from the spec: type `api.DatabasePhase` is declared in apimachinery; the
controller writes the first three phases and the spec lists all five. -/
inductive DatabasePhase where
  | Creating
  | Initializing
  | Running
  | Pausing
  | WipedOut
deriving DecidableEq, Repr

/-- Type `api.XdbStatus`; the creation time is a clock reading. -/
structure XdbStatus where
  CreationTime : Option Nat
  Phase : Option DatabasePhase
deriving DecidableEq, Repr

/-- Type `metav1.ObjectMeta`: the fields the controller reads or writes. -/
structure ObjectMeta where
  Name : String
  Namespace : String
  Labels : Option StrMap
  Annotations : Option StrMap
deriving DecidableEq

/-- Type `api.Xdb`. -/
structure Xdb where
  ObjectMeta : ObjectMeta
  Spec : XdbSpec
  Status : XdbStatus
deriving DecidableEq

/-- Type `api.OriginSpec`: a pointer to the preserved spec. -/
structure OriginSpec where
  Xdb : Option XdbSpec
deriving DecidableEq

/-- Type `api.Origin`. -/
structure Origin where
  ObjectMeta : ObjectMeta
  Spec : OriginSpec
deriving DecidableEq

/-- Type `api.DormantDatabaseSpec`. -/
structure DormantDatabaseSpec where
  Origin : Origin
  Resume : Bool
deriving DecidableEq

/-- Type `api.DormantDatabase`. -/
structure DormantDatabase where
  ObjectMeta : ObjectMeta
  Spec : DormantDatabaseSpec
deriving DecidableEq

/-- Type `labels.Selector`: the equality requirements a selector holds; a selector without
requirements selects every object. Which selector `labels.SelectorFromSet` makes of a label
set is decided by the library and is a parameter of `Env`. -/
structure Selector where
  requirements : List (String × String)
deriving DecidableEq

/-- A stored snapshot, as returned by `Snapshots(ns).Get`. -/
structure Snapshot where
  Name : String
  Namespace : String
deriving DecidableEq, Repr

/-- A `core.Secret`, as built by `storage.NewOSMSecret`. -/
structure Secret where
  Name : String
  Namespace : String
deriving DecidableEq, Repr

/-- A workload `StatefulSet`, as returned by `createStatefulSet`. -/
structure StatefulSet where
  Name : String
  Namespace : String
deriving DecidableEq, Repr

/-- A restore `Job`, as returned by `createRestoreJob`. -/
structure Job where
  Name : String
  Namespace : String
deriving DecidableEq, Repr

/-! ## Calls that leave the controller -/

/-- The mutation closures handed to `util.TryPatchXdb`, one constructor per closure. -/
inductive XdbPatch where
  | creating
  | initializing
  | running
deriving DecidableEq, Repr

/-- What each closure handed to `util.TryPatchXdb` does to the stored resource; `now` is the
reading of `metav1.Now()`. -/
def XdbPatch.apply (now : Nat) : XdbPatch → Xdb → Xdb
  | .creating, x =>
    { x with Status := { x.Status with CreationTime := some now, Phase := some .Creating } }
  | .initializing, x => { x with Status := { x.Status with Phase := some .Initializing } }
  | .running, x => { x with Status := { x.Status with Phase := some .Running } }

/-- The mutation closure handed to `util.TryPatchDormantDatabase` by `create`. -/
inductive DormantPatch where
  | resume
deriving DecidableEq, Repr

/-- What the closure handed to `util.TryPatchDormantDatabase` does to the stored record. -/
def DormantPatch.apply : DormantPatch → DormantDatabase → DormantDatabase
  | .resume, d => { d with Spec := { d.Spec with Resume := true } }

/-- Result of a Go call returning `(value, error)`. -/
inductive Res (α : Type) where
  | ok (a : α)
  | err (e : KErr)
deriving DecidableEq

/-- Calls leaving the controller whose only answer is an `error` (or nothing). -/
inductive Cmd where
  | tryPatchXdb (om : ObjectMeta) (p : XdbPatch)
  | tryPatchDormantDatabase (om : ObjectMeta) (p : DormantPatch)
  | validateXdb (xdb : Xdb)
  | xdbCreate (xdb : Xdb)
  | xdbDelete (ns name : String)
  | dormantCreate (d : DormantDatabase)
  | reCreateXdb (xdb : Xdb)
  | createGoverningService (name ns : String)
  | createService (xdb : Xdb)
  | checkStatefulSetPodStatus (ss : StatefulSet) (duration : Nat)
  | scheduleBackup (xdb : Xdb) (om : ObjectMeta) (schedule : BackupScheduleSpec)
  | stopBackupScheduling (om : ObjectMeta)
  | addMonitor (xdb : Xdb)
  | deleteMonitor (xdb : Xdb)
  | updateMonitor (oldXdb updatedXdb : Xdb)
  | secretCreate (secret : Secret)
  | deleteSnapshots (ns : String) (sel : Selector)
  | deletePersistentVolumeClaims (ns : String) (sel : Selector)
deriving DecidableEq

/-- Event types `core.EventTypeNormal` and `core.EventTypeWarning`. -/
inductive EventType where
  | Normal
  | Warning
deriving DecidableEq, Repr

/-- One interaction of the controller with its surroundings: the call and its answer. -/
inductive Step where
  | exec (c : Cmd) (r : Option KErr)
  | dormantGet (ns name : String) (r : Res DormantDatabase)
  | findService (xdb : Xdb) (r : Res Bool)
  | findStatefulSet (xdb : Xdb) (r : Res Bool)
  | createStatefulSet (xdb : Xdb) (r : Res StatefulSet)
  | snapshotGet (ns name : String) (r : Res Snapshot)
  | newOSMSecret (snapshot : Snapshot) (r : Res Secret)
  | createRestoreJob (xdb : Xdb) (snapshot : Snapshot) (r : Res Job)
  | checkDatabaseRestoreJob (job : Job) (xdb : Xdb) (duration : Nat) (r : Bool)
  | event (eventType : EventType) (reason message : String)
deriving DecidableEq

/-- The surroundings of the controller: how each outgoing call is answered in a cluster state
`σ` and which state it leaves, the JSON decoder and encoder for `api.InitSpec`, the library
function `labels.SelectorFromSet`, and the two configured values `c.opt.GoverningService` and
`durationCheckStatefulSet`. -/
structure Env (σ : Type) where
  exec : Cmd → σ → Option KErr × σ
  dormantGet : String → String → σ → Res DormantDatabase × σ
  findService : Xdb → σ → Res Bool × σ
  findStatefulSet : Xdb → σ → Res Bool × σ
  createStatefulSet : Xdb → σ → Res StatefulSet × σ
  snapshotGet : String → String → σ → Res Snapshot × σ
  newOSMSecret : Snapshot → σ → Res Secret × σ
  createRestoreJob : Xdb → Snapshot → σ → Res Job × σ
  checkDatabaseRestoreJob : Job → Xdb → Nat → σ → Bool × σ
  unmarshalInitSpec : String → Res (Option InitSpec)
  marshalInitSpec : InitSpec → String
  SelectorFromSet : StrMap → Selector
  GoverningService : String
  durationCheckStatefulSet : Nat

/-- Outcome of running a controller method: returned value, cluster state, steps taken. -/
structure Out (σ α : Type) where
  val : α
  st : σ
  log : List Step

/-- A controller method: run from a cluster state, it yields an `Out`. -/
structure M (σ α : Type) where
  run : σ → Out σ α

/-- Returning a value takes no step. -/
def M.pure {σ α : Type} (a : α) : M σ α := ⟨fun s => ⟨a, s, []⟩⟩

/-- Sequencing threads the state and concatenates the logs. -/
def M.bind {σ α β : Type} (m : M σ α) (f : α → M σ β) : M σ β := ⟨fun s =>
  ⟨((f (m.run s).val).run (m.run s).st).val, ((f (m.run s).val).run (m.run s).st).st,
    (m.run s).log ++ ((f (m.run s).val).run (m.run s).st).log⟩⟩

instance {σ : Type} : Monad (M σ) where
  pure := M.pure
  bind := M.bind

section Calls

variable {σ : Type}

/-- Issue an error-only call. -/
def exec (env : Env σ) (c : Cmd) : M σ (Option KErr) := ⟨fun s =>
  ⟨(env.exec c s).1, (env.exec c s).2, [Step.exec c (env.exec c s).1]⟩⟩

/-- The call `c.ExtClient.DormantDatabases(ns).Get(name, ...)`. -/
def dormantGet (env : Env σ) (ns name : String) : M σ (Res DormantDatabase) := ⟨fun s =>
  ⟨(env.dormantGet ns name s).1, (env.dormantGet ns name s).2,
    [Step.dormantGet ns name (env.dormantGet ns name s).1]⟩⟩

/-- The call `c.findService(xdb)`. -/
def findService (env : Env σ) (xdb : Xdb) : M σ (Res Bool) := ⟨fun s =>
  ⟨(env.findService xdb s).1, (env.findService xdb s).2,
    [Step.findService xdb (env.findService xdb s).1]⟩⟩

/-- The call `c.findStatefulSet(xdb)`. -/
def findStatefulSet (env : Env σ) (xdb : Xdb) : M σ (Res Bool) := ⟨fun s =>
  ⟨(env.findStatefulSet xdb s).1, (env.findStatefulSet xdb s).2,
    [Step.findStatefulSet xdb (env.findStatefulSet xdb s).1]⟩⟩

/-- The call `c.createStatefulSet(xdb)`. -/
def createStatefulSet (env : Env σ) (xdb : Xdb) : M σ (Res StatefulSet) := ⟨fun s =>
  ⟨(env.createStatefulSet xdb s).1, (env.createStatefulSet xdb s).2,
    [Step.createStatefulSet xdb (env.createStatefulSet xdb s).1]⟩⟩

/-- The call `c.ExtClient.Snapshots(ns).Get(name, ...)`. -/
def snapshotGet (env : Env σ) (ns name : String) : M σ (Res Snapshot) := ⟨fun s =>
  ⟨(env.snapshotGet ns name s).1, (env.snapshotGet ns name s).2,
    [Step.snapshotGet ns name (env.snapshotGet ns name s).1]⟩⟩

/-- The call `storage.NewOSMSecret(c.Client, snapshot)`. -/
def newOSMSecret (env : Env σ) (snapshot : Snapshot) : M σ (Res Secret) := ⟨fun s =>
  ⟨(env.newOSMSecret snapshot s).1, (env.newOSMSecret snapshot s).2,
    [Step.newOSMSecret snapshot (env.newOSMSecret snapshot s).1]⟩⟩

/-- The call `c.createRestoreJob(xdb, snapshot)`. -/
def createRestoreJob (env : Env σ) (xdb : Xdb) (snapshot : Snapshot) : M σ (Res Job) :=
  ⟨fun s =>
  ⟨(env.createRestoreJob xdb snapshot s).1, (env.createRestoreJob xdb snapshot s).2,
    [Step.createRestoreJob xdb snapshot (env.createRestoreJob xdb snapshot s).1]⟩⟩

/-- The call `c.CheckDatabaseRestoreJob(job, xdb, c.recorder, duration)`. -/
def checkDatabaseRestoreJob (env : Env σ) (job : Job) (xdb : Xdb) (duration : Nat) :
    M σ Bool := ⟨fun s =>
  ⟨(env.checkDatabaseRestoreJob job xdb duration s).1,
    (env.checkDatabaseRestoreJob job xdb duration s).2,
    [Step.checkDatabaseRestoreJob job xdb duration
      (env.checkDatabaseRestoreJob job xdb duration s).1]⟩⟩

/-- The calls `c.recorder.Event` and `c.recorder.Eventf`: recorded, the cluster state
untouched. A reason `eventer.EventReasonX` is written `"X"`. -/
def event (eventType : EventType) (reason message : String) : M σ Unit := ⟨fun s =>
  ⟨(), s, [Step.event eventType reason message]⟩⟩

end Calls

/-! ## `xdb.go` -/

section Controller

variable {σ : Type}

/-- The closure `sendEvent` of `matchDormantDatabase`. -/
def sendEvent (message : String) : M σ (Bool × Option KErr) := do
  event .Warning "FailedToCreate" message
  return (false, some (errorsNew message))

/-- Method `matchDormantDatabase` of `xdb.go`. -/
def matchDormantDatabase (env : Env σ) (xdb : Xdb) : M σ (Bool × Option KErr) := do
  -- Check if DormantDatabase exists or not
  match ← dormantGet env xdb.ObjectMeta.Namespace xdb.ObjectMeta.Name with
  | .err err =>
    if !err.notFound then
      event .Warning "FailedToGet"
        ("Fail to get DormantDatabase: \"" ++ xdb.ObjectMeta.Name ++ "\". Reason: " ++ err.msg)
      return (false, some err)
    return (false, none)
  | .ok dormantDb =>
    -- Check DatabaseKind
    if mapIndex dormantDb.ObjectMeta.Labels LabelDatabaseKind ≠ ResourceKindXdb then
      return ← sendEvent ("Invalid Xdb: \"" ++ xdb.ObjectMeta.Name
        ++ "\". Exists DormantDatabase \"" ++ dormantDb.ObjectMeta.Name
        ++ "\" of different Kind")
    -- Check InitSpec
    let initSpecStr := mapIndex dormantDb.ObjectMeta.Annotations XdbInitSpec
    if initSpecStr ≠ "" then
      match env.unmarshalInitSpec initSpecStr with
      | .err err => return ← sendEvent err.msg
      | .ok initSpecAnn =>
        if xdb.Spec.Init ≠ none then
          if initSpecAnn ≠ xdb.Spec.Init then
            return ← sendEvent "InitSpec mismatches with DormantDatabase annotation"
    -- Check Origin Spec
    let drmnOriginSpec := dormantDb.Spec.Origin.Spec.Xdb
    let mut originalSpec := xdb.Spec
    originalSpec := { originalSpec with Init := none }
    if originalSpec.DatabaseSecret = none then
      originalSpec := { originalSpec with
        DatabaseSecret := some { SecretName := xdb.ObjectMeta.Name ++ "-admin-auth" } }
    if drmnOriginSpec ≠ some originalSpec then
      return ← sendEvent "Xdb spec mismatches with OriginSpec in DormantDatabases"
    return (true, none)

/-- Method `ensureService` of `xdb.go`. -/
def ensureService (env : Env σ) (xdb : Xdb) : M σ (Option KErr) := do
  -- Check if service name exists
  match ← findService env xdb with
  | .err err => return some err
  | .ok found =>
    if found then
      return none
    -- create database Service
    match ← exec env (.createService xdb) with
    | some err =>
      event .Warning "FailedToCreate" ("Failed to create Service. Reason: " ++ err.msg)
      return some err
    | none => return none

/-- Constant `durationCheckRestoreJob` of `xdb.go`: thirty minutes, in nanoseconds. -/
def durationCheckRestoreJob : Nat := 60 * 1000000000 * 30

/-- Method `initialize` of `xdb.go`, under another name because that one is reserved. The
argument `snapshotSource` is the value of `xdb.Spec.Init.SnapshotSource`, which the only caller
has checked to be non-nil. -/
def initializeDb (env : Env σ) (xdb : Xdb) (snapshotSource : SnapshotSourceSpec) :
    M σ (Option KErr) := do
  event .Normal "Initializing" ("Initializing from Snapshot: \"" ++ snapshotSource.Name ++ "\"")
  let namespace1 :=
    if snapshotSource.Namespace = "" then xdb.ObjectMeta.Namespace else snapshotSource.Namespace
  match ← snapshotGet env namespace1 snapshotSource.Name with
  | .err err => return some err
  | .ok snapshot =>
    match ← newOSMSecret env snapshot with
    | .err err => return some err
    | .ok secret =>
      match ← exec env (.secretCreate secret) with
      | some err => return some err
      | none =>
        match ← createRestoreJob env xdb snapshot with
        | .err err => return some err
        | .ok job =>
          let jobSuccess ← checkDatabaseRestoreJob env job xdb durationCheckRestoreJob
          if jobSuccess then
            event .Normal "SuccessfulInitialize" "Successfully completed initialization"
          else
            event .Warning "FailedToInitialize" "Failed to complete initialization"
          return none

/-- Method `ensureStatefulSet` of `xdb.go`. -/
def ensureStatefulSet (env : Env σ) (xdb : Xdb) : M σ (Option KErr) := do
  match ← findStatefulSet env xdb with
  | .err err => return some err
  | .ok found =>
    if found then
      return none
    -- Create statefulSet for Xdb database
    match ← createStatefulSet env xdb with
    | .err err =>
      event .Warning "FailedToCreate" ("Failed to create StatefulSet. Reason: " ++ err.msg)
      return some err
    | .ok statefulSet =>
      -- Check StatefulSet Pod status
      match ← exec env (.checkStatefulSetPodStatus statefulSet env.durationCheckStatefulSet) with
      | some err =>
        event .Warning "FailedToStart" ("Failed to create StatefulSet. Reason: " ++ err.msg)
        return some err
      | none =>
        event .Normal "SuccessfulCreate" "Successfully created StatefulSet"
        match xdb.Spec.Init.bind InitSpec.SnapshotSource with
        | some snapshotSource =>
          match ← exec env (.tryPatchXdb xdb.ObjectMeta .initializing) with
          | some err =>
            event .Warning "FailedToUpdate" err.msg
            return some err
          | none =>
            match ← initializeDb env xdb snapshotSource with
            | some err =>
              event .Warning "FailedToInitialize" ("Failed to initialize. Reason: " ++ err.msg)
            | none => pure ()
        | none => pure ()
        match ← exec env (.tryPatchXdb xdb.ObjectMeta .running) with
        | some err =>
          event .Warning "FailedToUpdate" err.msg
          return some err
        | none => return none

/-- Method `ensureBackupScheduler` of `xdb.go`. -/
def ensureBackupScheduler (env : Env σ) (xdb : Xdb) : M σ Unit := do
  -- Setup Schedule backup
  match xdb.Spec.BackupSchedule with
  | some schedule =>
    match ← exec env (.scheduleBackup xdb xdb.ObjectMeta schedule) with
    | some err =>
      event .Warning "FailedToSchedule" ("Failed to schedule snapshot. Reason: " ++ err.msg)
    | none => pure ()
  | none =>
    let _ ← exec env (.stopBackupScheduling xdb.ObjectMeta)

/-- Method `create` of `xdb.go`. Besides the returned `error` the result carries the resource
object as the call leaves it behind its pointer argument. -/
def create (env : Env σ) (xdb : Xdb) : M σ (Option KErr × Xdb) := do
  match ← exec env (.tryPatchXdb xdb.ObjectMeta .creating) with
  | some err =>
    event .Warning "FailedToUpdate" err.msg
    return (some err, xdb)
  | none =>
    match ← exec env (.validateXdb xdb) with
    | some err =>
      event .Warning "Invalid" err.msg
      return (some err, xdb)
    | none =>
      -- Event for successful validation
      event .Normal "SuccessfulValidate" "Successfully validate Xdb"
      -- Check DormantDatabase
      match ← matchDormantDatabase env xdb with
      | (_, some err) => return (some err, xdb)
      | (true, none) =>
        let xdb := { xdb with
          ObjectMeta := { xdb.ObjectMeta with Annotations := some (AList.singleton ignoreKey "") } }
        match ← exec env (.xdbDelete xdb.ObjectMeta.Namespace xdb.ObjectMeta.Name) with
        | some err =>
          return (some (errorsNew ("Failed to resume Xdb \"" ++ xdb.ObjectMeta.Name
            ++ "\" from DormantDatabase \"" ++ xdb.ObjectMeta.Name ++ "\". Error: " ++ err.msg)),
            xdb)
        | none =>
          match ← exec env (.tryPatchDormantDatabase xdb.ObjectMeta .resume) with
          | some err =>
            event .Warning "FailedToUpdate" err.msg
            return (some err, xdb)
          | none => return (none, xdb)
      | (false, none) =>
        -- Event for notification that kubernetes objects are creating
        event .Normal "Creating" "Creating Kubernetes objects"
        -- create Governing Service
        let governingService := env.GoverningService
        match ← exec env (.createGoverningService governingService xdb.ObjectMeta.Namespace) with
        | some err =>
          event .Warning "FailedToCreate" ("Failed to create Service: \"" ++ governingService
            ++ "\". Reason: " ++ err.msg)
          return (some err, xdb)
        | none =>
          -- ensure database Service
          match ← ensureService env xdb with
          | some err => return (some err, xdb)
          | none =>
            -- ensure database StatefulSet
            match ← ensureStatefulSet env xdb with
            | some err => return (some err, xdb)
            | none =>
              event .Normal "SuccessfulCreate" "Successfully created Xdb"
              -- Ensure Schedule backup
              ensureBackupScheduler env xdb
              if xdb.Spec.Monitor ≠ none then
                match ← exec env (.addMonitor xdb) with
                | some err =>
                  event .Warning "FailedToCreate"
                    ("Failed to add monitoring system. Reason: " ++ err.msg)
                  return (none, xdb)
                | none =>
                  event .Normal "SuccessfulCreate" "Successfully added monitoring system."
              return (none, xdb)

/-- Modelled from the spec: the record built by the helper `createDormantDatabase`, which is
not among the sources. The spec gives a DormantDatabase the name and namespace of the original
resource, a recorded database-kind label, a `Resume` flag that is set later to request
resumption, an `Origin` that copies the original resource's metadata and spec at pause time,
and an annotation that may carry the serialized `InitSpec`. The `Init` is kept in that
annotation and not in the origin spec: the Spec Matcher reads it from the annotation and
compares the origin spec with a candidate whose `Init` is cleared, "since init is one-shot and
not part of steady-state identity" (`xdb.go`, lines 175 to 204), and `ResumeDatabase` refuses
an origin spec that has one (`dormant_database.go`, line 151). The encoder `json.Marshal` is
a parameter of `Env`. -/
def dormantRecord (env : Env σ) (xdb : Xdb) : DormantDatabase :=
  { ObjectMeta :=
      { Name := xdb.ObjectMeta.Name
        Namespace := xdb.ObjectMeta.Namespace
        Labels := some (AList.singleton LabelDatabaseKind ResourceKindXdb)
        Annotations := xdb.Spec.Init.map
          (fun init => AList.singleton XdbInitSpec (env.marshalInitSpec init)) }
    Spec :=
      { Origin :=
          { ObjectMeta := xdb.ObjectMeta
            Spec := { Xdb := some { xdb.Spec with Init := none } } }
        Resume := false } }

/-- Modelled from the spec: the helper `createDormantDatabase`, called by `pause`, is not among
the sources; it creates the record `dormantRecord` through the resource store. -/
def createDormantDatabase (env : Env σ) (xdb : Xdb) : M σ (Option KErr) :=
  exec env (.dormantCreate (dormantRecord env xdb))

/-- Method `pause` of `xdb.go`. -/
def pause (env : Env σ) (xdb : Xdb) : M σ (Option KErr) := do
  match mapFind xdb.ObjectMeta.Annotations ignoreKey with
  | some val =>
    event .Normal "Ignored" val
    return none
  | none =>
    event .Normal "Pausing" "Pausing Xdb"
    if xdb.Spec.DoNotPause then
      event .Warning "FailedToPause" ("Xdb \"" ++ xdb.ObjectMeta.Name ++ "\" is locked.")
      match ← exec env (.reCreateXdb xdb) with
      | some err =>
        event .Warning "FailedToCreate" ("Failed to recreate Xdb: \"" ++ xdb.ObjectMeta.Name
          ++ "\". Reason: " ++ err.msg)
        return some err
      | none => return none
    match ← createDormantDatabase env xdb with
    | some err =>
      event .Warning "FailedToCreate" ("Failed to create DormantDatabase: \""
        ++ xdb.ObjectMeta.Name ++ "\". Reason: " ++ err.msg)
      return some err
    | none =>
      event .Normal "SuccessfulCreate" ("Successfully created DormantDatabase: \""
        ++ xdb.ObjectMeta.Name ++ "\"")
      let _ ← exec env (.stopBackupScheduling xdb.ObjectMeta)
      if xdb.Spec.Monitor ≠ none then
        match ← exec env (.deleteMonitor xdb) with
        | some err =>
          event .Warning "FailedToDelete"
            ("Failed to delete monitoring system. Reason: " ++ err.msg)
          return none
        | none =>
          event .Normal "SuccessfulMonitorDelete" "Successfully deleted monitoring system."
      return none

/-- Method `update` of `xdb.go`. -/
def update (env : Env σ) (oldXdb updatedXdb : Xdb) : M σ (Option KErr) := do
  match ← exec env (.validateXdb updatedXdb) with
  | some err =>
    event .Warning "Invalid" err.msg
    return some err
  | none =>
    -- Event for successful validation
    event .Normal "SuccessfulValidate" "Successfully validate Xdb"
    match ← ensureService env updatedXdb with
    | some err => return some err
    | none =>
      match ← ensureStatefulSet env updatedXdb with
      | some err => return some err
      | none =>
        if updatedXdb.Spec.BackupSchedule ≠ oldXdb.Spec.BackupSchedule then
          ensureBackupScheduler env updatedXdb
        if oldXdb.Spec.Monitor ≠ updatedXdb.Spec.Monitor then
          match ← exec env (.updateMonitor oldXdb updatedXdb) with
          | some err =>
            event .Warning "FailedToUpdate"
              ("Failed to update monitoring system. Reason: " ++ err.msg)
            return none
          | none =>
            event .Normal "SuccessfulMonitorUpdate" "Successfully updated monitoring system."
        return none

/-! ## `dormant_database.go` -/

/-- Method `WipeOutDatabase` of `dormant_database.go`. -/
def WipeOutDatabase (env : Env σ) (dormantDb : DormantDatabase) : M σ (Option KErr) := do
  let labelMap : StrMap :=
    AList.insert LabelDatabaseKind ResourceKindXdb
      (AList.singleton LabelDatabaseName dormantDb.ObjectMeta.Name)
  let labelSelector := env.SelectorFromSet labelMap
  match ← exec env (.deleteSnapshots dormantDb.ObjectMeta.Namespace labelSelector) with
  | some err => return some err
  | none =>
    match ← exec env
      (.deletePersistentVolumeClaims dormantDb.ObjectMeta.Namespace labelSelector) with
    | some err => return some err
    | none => return none

/-- The loop `for key, val := range src { dst[key] = val }`; a nil `src` has no entries. -/
def copyInto (dst : StrMap) (src : Option StrMap) : StrMap :=
  match src with
  | none => dst
  | some src => src.foldl (fun acc key val => acc.insert key val) dst

/-- Method `ResumeDatabase` of `dormant_database.go`. The result is `none` when the method
dereferences the nil pointer `origin.Spec.Xdb`, which it does before making any call. -/
def ResumeDatabase (env : Env σ) (dormantDb : DormantDatabase) : Option (M σ (Option KErr)) :=
  let origin := dormantDb.Spec.Origin
  let objectMeta := origin.ObjectMeta
  match origin.Spec.Xdb with
  | none => none
  | some originSpec =>
    if originSpec.Init ≠ none then
      some (return some (errorsNew "do not support InitSpec in spec.origin.xdb"))
    else
      -- `xdb.Annotations` starts as the origin's map, replaced by a fresh map when nil,
      -- and then receives every annotation of the dormant record
      let annotations : StrMap :=
        match objectMeta.Annotations with
        | none => ∅
        | some originAnnotations => originAnnotations
      let xdb : Xdb :=
        { ObjectMeta :=
            { Name := objectMeta.Name
              Namespace := objectMeta.Namespace
              Labels := objectMeta.Labels
              Annotations := some (copyInto annotations dormantDb.ObjectMeta.Annotations) }
          Spec := originSpec
          Status := { CreationTime := none, Phase := none } }
      some (exec env (.xdbCreate xdb))

end Controller

/-! ## Vocabulary of the statements -/

/-- The candidate spec as `matchDormantDatabase` compares it: `Init` cleared, and the default
secret name `<name>-admin-auth` when no `DatabaseSecret` is given. -/
def normalizedSpec (name : String) (spec : XdbSpec) : XdbSpec :=
  { spec with
    Init := none
    DatabaseSecret := some (spec.DatabaseSecret.getD { SecretName := name ++ "-admin-auth" }) }

/-- The phase a closure handed to `util.TryPatchXdb` writes. -/
def XdbPatch.phase : XdbPatch → DatabasePhase
  | .creating => .Creating
  | .initializing => .Initializing
  | .running => .Running

/-- The phase a step patches onto the resource's status: the one written by a successful
`util.TryPatchXdb` call. -/
def Step.patchedPhase : Step → Option DatabasePhase
  | .exec (.tryPatchXdb _ p) none => some p.phase
  | _ => none

/-- The phases patched onto the resource's status, in order. -/
def phasesPatched (log : List Step) : List DatabasePhase :=
  log.filterMap Step.patchedPhase

/-- The steps that are governing-service, Service, StatefulSet, restore, backup-schedule or
monitor operations. -/
def Step.isInfra : Step → Bool
  | .exec (.createGoverningService _ _) _ => true
  | .findService _ _ => true
  | .exec (.createService _) _ => true
  | .findStatefulSet _ _ => true
  | .createStatefulSet _ _ => true
  | .exec (.checkStatefulSetPodStatus _ _) _ => true
  | .snapshotGet _ _ _ => true
  | .newOSMSecret _ _ => true
  | .exec (.secretCreate _) _ => true
  | .createRestoreJob _ _ _ => true
  | .checkDatabaseRestoreJob _ _ _ _ => true
  | .exec (.scheduleBackup _ _ _) _ => true
  | .exec (.stopBackupScheduling _) _ => true
  | .exec (.addMonitor _) _ => true
  | .exec (.deleteMonitor _) _ => true
  | .exec (.updateMonitor _ _) _ => true
  | _ => false

/-- The steps that consult or modify a DormantDatabase. -/
def Step.touchesDormant : Step → Bool
  | .dormantGet _ _ _ => true
  | .exec (.dormantCreate _) _ => true
  | .exec (.tryPatchDormantDatabase _ _) _ => true
  | _ => false

/-- The steps that are error-only calls. -/
def Step.isExec : Step → Bool
  | .exec _ _ => true
  | _ => false

/-- The steps that are recorded events. -/
def Step.isEvent : Step → Bool
  | .event _ _ _ => true
  | _ => false

/-- The cluster state in which `create` consults the Spec Matcher: the one left by the status
patch and the validation call. -/
def stateAtMatch {σ : Type} (env : Env σ) (xdb : Xdb) (s : σ) : σ :=
  (env.exec (.validateXdb xdb) (env.exec (.tryPatchXdb xdb.ObjectMeta .creating) s).2).2

/-- The cluster state in which `create` goes on after consulting the Spec Matcher: the one the
matcher leaves when run in `stateAtMatch`. -/
def stateAfterMatch {σ : Type} (env : Env σ) (xdb : Xdb) (s : σ) : σ :=
  ((matchDormantDatabase env xdb).run (stateAtMatch env xdb s)).st

/-- The two bulk deletions issued by `WipeOutDatabase`. -/
def Cmd.isDeletion : Cmd → Bool
  | .deleteSnapshots _ _ => true
  | .deletePersistentVolumeClaims _ _ => true
  | _ => false

/-- What "deleting already-absent resources is a no-op" asks of the surroundings, with
`absent c s` read as: the objects targeted by the deletion `c` are absent in state `s`. A
successful deletion leaves its targets absent, a deletion does not bring back the targets of
another, and deleting absent targets succeeds and changes nothing. -/
structure AbsentIsNoOp {σ : Type} (env : Env σ) (absent : Cmd → σ → Prop) : Prop where
  established : ∀ c s, c.isDeletion = true → (env.exec c s).1 = none →
    absent c (env.exec c s).2
  preserved : ∀ c c' s, c'.isDeletion = true → absent c s → absent c (env.exec c' s).2
  noop : ∀ c s, c.isDeletion = true → absent c s → env.exec c s = (none, s)

/-- Every step the method `m` can take, from whatever state it is run, satisfies `P`. -/
def AllSteps {σ α : Type} (P : Step → Prop) (m : M σ α) : Prop :=
  ∀ s, ∀ st ∈ (m.run s).log, P st

/-- A snapshot-based bootstrap source naming `snap1`. -/
def snap1Init : InitSpec := { SnapshotSource := some { Namespace := "demo", Name := "snap1" } }

/-- The JSON document of `snap1Init`. -/
def snap1Json : String :=
  "\x7b\"snapshotSource\":\x7b\"namespace\":\"demo\",\"name\":\"snap1\"\x7d\x7d"

/-- A decoder that knows the document `snap1Json`. -/
def snap1Decode : String → Res (Option InitSpec) := fun str =>
  if str = snap1Json then .ok (some snap1Init) else .err (errorsNew "invalid character")

/-- An encoder that writes `snap1Json` for `snap1Init` and an empty object otherwise. -/
def snap1Encode : InitSpec → String := fun init =>
  if init = snap1Init then snap1Json else "\x7b\x7d"

/-- A selector with one equality requirement per label of the set. -/
def equalitySelector (labelMap : StrMap) : Selector :=
  ⟨labelMap.entries.map (fun e => (e.1, e.2))⟩

/-- An environment over the one-point cluster state: an error-only call `c` answers `fail c`,
the DormantDatabase lookup answers `lookup`, the StatefulSet lookup answers `ssFound`, the
decoder is `decode`, and every other call succeeds. -/
def scriptedEnv (fail : Cmd → Option KErr) (lookup : Res DormantDatabase) (ssFound : Bool)
    (decode : String → Res (Option InitSpec)) : Env Unit where
  exec := fun c s => (fail c, s)
  dormantGet := fun _ _ s => (lookup, s)
  findService := fun _ s => (.ok false, s)
  findStatefulSet := fun _ s => (.ok ssFound, s)
  createStatefulSet := fun xdb s => (.ok ⟨xdb.ObjectMeta.Name, xdb.ObjectMeta.Namespace⟩, s)
  snapshotGet := fun ns name s => (.ok ⟨name, ns⟩, s)
  newOSMSecret := fun snapshot s => (.ok ⟨"osm-" ++ snapshot.Name, snapshot.Namespace⟩, s)
  createRestoreJob := fun xdb _ s =>
    (.ok ⟨"restore-" ++ xdb.ObjectMeta.Name, xdb.ObjectMeta.Namespace⟩, s)
  checkDatabaseRestoreJob := fun _ _ _ s => (true, s)
  unmarshalInitSpec := decode
  marshalInitSpec := snap1Encode
  SelectorFromSet := equalitySelector
  GoverningService := "kubedb"
  durationCheckStatefulSet := 600

/-- The error of a failed validation. -/
def invalidErr : KErr := { msg := "invalid spec", notFound := false }

/-- Every error-only call succeeds. -/
def allOk : Cmd → Option KErr := fun _ => none

/-- Every error-only call succeeds, except validation. -/
def validationFails : Cmd → Option KErr
  | .validateXdb _ => some invalidErr
  | _ => none

/-- The answer "no such object" of the resource store. -/
def notFoundErr : KErr := { msg := "not found", notFound := true }

/-- An environment over a cluster state that only tells whether the snapshots and the volume
claims of a dormant record are still present: a bulk deletion succeeds and clears its flag. -/
def flagEnv : Env (Bool × Bool) where
  exec := fun c s =>
    match c with
    | .deleteSnapshots _ _ => (none, (false, s.2))
    | .deletePersistentVolumeClaims _ _ => (none, (s.1, false))
    | _ => (none, s)
  dormantGet := fun _ _ s => (.err ⟨"not found", true⟩, s)
  findService := fun _ s => (.ok false, s)
  findStatefulSet := fun _ s => (.ok false, s)
  createStatefulSet := fun xdb s => (.ok ⟨xdb.ObjectMeta.Name, xdb.ObjectMeta.Namespace⟩, s)
  snapshotGet := fun ns name s => (.ok ⟨name, ns⟩, s)
  newOSMSecret := fun snapshot s => (.ok ⟨"osm-" ++ snapshot.Name, snapshot.Namespace⟩, s)
  createRestoreJob := fun xdb _ s =>
    (.ok ⟨"restore-" ++ xdb.ObjectMeta.Name, xdb.ObjectMeta.Namespace⟩, s)
  checkDatabaseRestoreJob := fun _ _ _ s => (true, s)
  unmarshalInitSpec := fun _ => .err (errorsNew "invalid character")
  marshalInitSpec := snap1Encode
  SelectorFromSet := equalitySelector
  GoverningService := "kubedb"
  durationCheckStatefulSet := 600

/-- In `flagEnv` the targets of a bulk deletion are absent when its flag is cleared. -/
def flagAbsent : Cmd → Bool × Bool → Prop
  | .deleteSnapshots _ _, s => s.1 = false
  | .deletePersistentVolumeClaims _ _, s => s.2 = false
  | _, _ => False

/-- A decoder that accepts no document. -/
def noDecode : String → Res (Option InitSpec) := fun _ => .err (errorsNew "invalid character")

/-- A spec with every optional part absent. -/
def plainSpec : XdbSpec :=
  { Init := none, DatabaseSecret := none, BackupSchedule := none, Monitor := none,
    DoNotPause := false }

/-- The resource `db1` in namespace `demo` with spec `spec` and annotations `ann`. -/
def db1 (spec : XdbSpec) (ann : Option StrMap) : Xdb :=
  { ObjectMeta := { Name := "db1", Namespace := "demo", Labels := none, Annotations := ann }
    Spec := spec
    Status := { CreationTime := none, Phase := none } }

/-- A dormant record of `db1` whose origin spec is `origin`, whose origin annotations are
`originAnn` and whose own annotations are `ann`. -/
def dormantDb1 (origin : Option XdbSpec) (originAnn ann : Option StrMap) : DormantDatabase :=
  { ObjectMeta :=
      { Name := "db1", Namespace := "demo"
        Labels := some (AList.singleton LabelDatabaseKind ResourceKindXdb)
        Annotations := ann }
    Spec :=
      { Origin :=
          { ObjectMeta :=
              { Name := "db1", Namespace := "demo", Labels := none, Annotations := originAnn }
            Spec := { Xdb := origin } }
        Resume := false } }

/-! ## Running a method -/

section Run

variable {σ : Type}

@[simp] theorem run_pure {α : Type} (a : α) (s : σ) :
    (pure a : M σ α).run s = ⟨a, s, []⟩ := rfl

@[simp] theorem run_bind {α β : Type} (m : M σ α) (f : α → M σ β) (s : σ) :
    (m >>= f).run s = ⟨((f (m.run s).val).run (m.run s).st).val,
      ((f (m.run s).val).run (m.run s).st).st,
      (m.run s).log ++ ((f (m.run s).val).run (m.run s).st).log⟩ := rfl

@[simp] theorem run_event (t : EventType) (r m : String) (s : σ) :
    (event t r m : M σ Unit).run s = ⟨(), s, [Step.event t r m]⟩ := rfl

@[simp] theorem run_exec (env : Env σ) (c : Cmd) (s : σ) :
    (exec env c).run s = ⟨(env.exec c s).1, (env.exec c s).2, [Step.exec c (env.exec c s).1]⟩ :=
  rfl

@[simp] theorem run_dormantGet (env : Env σ) (ns name : String) (s : σ) :
    (dormantGet env ns name).run s = ⟨(env.dormantGet ns name s).1, (env.dormantGet ns name s).2,
      [Step.dormantGet ns name (env.dormantGet ns name s).1]⟩ := rfl

@[simp] theorem run_findService (env : Env σ) (xdb : Xdb) (s : σ) :
    (findService env xdb).run s = ⟨(env.findService xdb s).1, (env.findService xdb s).2,
      [Step.findService xdb (env.findService xdb s).1]⟩ := rfl

@[simp] theorem run_findStatefulSet (env : Env σ) (xdb : Xdb) (s : σ) :
    (findStatefulSet env xdb).run s = ⟨(env.findStatefulSet xdb s).1,
      (env.findStatefulSet xdb s).2, [Step.findStatefulSet xdb (env.findStatefulSet xdb s).1]⟩ :=
  rfl

@[simp] theorem run_createStatefulSet (env : Env σ) (xdb : Xdb) (s : σ) :
    (createStatefulSet env xdb).run s = ⟨(env.createStatefulSet xdb s).1,
      (env.createStatefulSet xdb s).2,
      [Step.createStatefulSet xdb (env.createStatefulSet xdb s).1]⟩ := rfl

@[simp] theorem run_snapshotGet (env : Env σ) (ns name : String) (s : σ) :
    (snapshotGet env ns name).run s = ⟨(env.snapshotGet ns name s).1,
      (env.snapshotGet ns name s).2, [Step.snapshotGet ns name (env.snapshotGet ns name s).1]⟩ :=
  rfl

@[simp] theorem run_newOSMSecret (env : Env σ) (snapshot : Snapshot) (s : σ) :
    (newOSMSecret env snapshot).run s = ⟨(env.newOSMSecret snapshot s).1,
      (env.newOSMSecret snapshot s).2,
      [Step.newOSMSecret snapshot (env.newOSMSecret snapshot s).1]⟩ := rfl

@[simp] theorem run_createRestoreJob (env : Env σ) (xdb : Xdb) (snapshot : Snapshot) (s : σ) :
    (createRestoreJob env xdb snapshot).run s = ⟨(env.createRestoreJob xdb snapshot s).1,
      (env.createRestoreJob xdb snapshot s).2,
      [Step.createRestoreJob xdb snapshot (env.createRestoreJob xdb snapshot s).1]⟩ := rfl

@[simp] theorem run_checkDatabaseRestoreJob (env : Env σ) (job : Job) (xdb : Xdb)
    (duration : Nat) (s : σ) :
    (checkDatabaseRestoreJob env job xdb duration).run s =
      ⟨(env.checkDatabaseRestoreJob job xdb duration s).1,
        (env.checkDatabaseRestoreJob job xdb duration s).2,
        [Step.checkDatabaseRestoreJob job xdb duration
          (env.checkDatabaseRestoreJob job xdb duration s).1]⟩ := rfl

@[simp] theorem run_sendEvent (message : String) (s : σ) :
    (sendEvent message : M σ (Bool × Option KErr)).run s =
      ⟨(false, some (errorsNew message)), s, [Step.event .Warning "FailedToCreate" message]⟩ :=
  rfl

end Run

/-! ## Which steps a helper can take -/

section Steps

variable {σ : Type} {P : Step → Prop}

theorem allSteps_ret {α : Type} (a : α) : AllSteps P (pure a : M σ α) := by
  intro s st h
  simp at h

theorem allSteps_seq {α β : Type} {m : M σ α} {f : α → M σ β} (hm : AllSteps P m)
    (hf : ∀ a, AllSteps P (f a)) : AllSteps P (m >>= f) := by
  intro s st h
  simp only [run_bind, List.mem_append] at h
  rcases h with h | h
  · exact hm s st h
  · exact hf _ _ st h

theorem allSteps_mono {α : Type} {Q : Step → Prop} {m : M σ α} (h : ∀ st, P st → Q st)
    (hm : AllSteps P m) : AllSteps Q m := fun s st hst => h st (hm s st hst)

theorem allSteps_event {t : EventType} {r m : String} (h : P (Step.event t r m)) :
    AllSteps P (event t r m : M σ Unit) := by
  intro s st hst
  simp only [run_event, List.mem_singleton] at hst
  exact hst ▸ h

theorem allSteps_exec {env : Env σ} {c : Cmd} (h : ∀ r, P (Step.exec c r)) :
    AllSteps P (exec env c) := by
  intro s st hst
  simp only [run_exec, List.mem_singleton] at hst
  exact hst ▸ h _

theorem allSteps_dormantGet {env : Env σ} {ns name : String}
    (h : ∀ r, P (Step.dormantGet ns name r)) : AllSteps P (dormantGet env ns name) := by
  intro s st hst
  simp only [run_dormantGet, List.mem_singleton] at hst
  exact hst ▸ h _

theorem allSteps_findService {env : Env σ} {xdb : Xdb} (h : ∀ r, P (Step.findService xdb r)) :
    AllSteps P (findService env xdb) := by
  intro s st hst
  simp only [run_findService, List.mem_singleton] at hst
  exact hst ▸ h _

theorem allSteps_findStatefulSet {env : Env σ} {xdb : Xdb}
    (h : ∀ r, P (Step.findStatefulSet xdb r)) : AllSteps P (findStatefulSet env xdb) := by
  intro s st hst
  simp only [run_findStatefulSet, List.mem_singleton] at hst
  exact hst ▸ h _

theorem allSteps_createStatefulSet {env : Env σ} {xdb : Xdb}
    (h : ∀ r, P (Step.createStatefulSet xdb r)) : AllSteps P (createStatefulSet env xdb) := by
  intro s st hst
  simp only [run_createStatefulSet, List.mem_singleton] at hst
  exact hst ▸ h _

theorem allSteps_snapshotGet {env : Env σ} {ns name : String}
    (h : ∀ r, P (Step.snapshotGet ns name r)) : AllSteps P (snapshotGet env ns name) := by
  intro s st hst
  simp only [run_snapshotGet, List.mem_singleton] at hst
  exact hst ▸ h _

theorem allSteps_newOSMSecret {env : Env σ} {snapshot : Snapshot}
    (h : ∀ r, P (Step.newOSMSecret snapshot r)) : AllSteps P (newOSMSecret env snapshot) := by
  intro s st hst
  simp only [run_newOSMSecret, List.mem_singleton] at hst
  exact hst ▸ h _

theorem allSteps_createRestoreJob {env : Env σ} {xdb : Xdb} {snapshot : Snapshot}
    (h : ∀ r, P (Step.createRestoreJob xdb snapshot r)) :
    AllSteps P (createRestoreJob env xdb snapshot) := by
  intro s st hst
  simp only [run_createRestoreJob, List.mem_singleton] at hst
  exact hst ▸ h _

theorem allSteps_checkDatabaseRestoreJob {env : Env σ} {job : Job} {xdb : Xdb} {duration : Nat}
    (h : ∀ r, P (Step.checkDatabaseRestoreJob job xdb duration r)) :
    AllSteps P (checkDatabaseRestoreJob env job xdb duration) := by
  intro s st hst
  simp only [run_checkDatabaseRestoreJob, List.mem_singleton] at hst
  exact hst ▸ h _

/-- An event is not an error-only call. -/
theorem isExec_of_isEvent {st : Step} (h : st.isEvent = true) : st.isExec = false := by
  cases st <;> simp [Step.isEvent, Step.isExec] at h ⊢

/-- An event is not an infrastructure step. -/
theorem isInfra_of_isEvent {st : Step} (h : st.isEvent = true) : st.isInfra = false := by
  cases st <;> simp [Step.isEvent, Step.isInfra] at h ⊢

/-- The Spec Matcher only looks the dormant record up and records events. -/
theorem matchDormantDatabase_steps (env : Env σ) (xdb : Xdb) :
    AllSteps (fun st =>
      (∃ r, st = Step.dormantGet xdb.ObjectMeta.Namespace xdb.ObjectMeta.Name r) ∨
        st.isEvent = true) (matchDormantDatabase env xdb) := by
  unfold matchDormantDatabase sendEvent
  repeat' first
    | exact allSteps_ret _
    | (refine allSteps_event ?_; simp [Step.isEvent])
    | (refine allSteps_dormantGet (fun _ => ?_); simp)
    | refine allSteps_seq ?_ (fun _ => ?_)
    | dsimp only
    | split

/-- `ensureService` only looks the Service up, creates it and records events. -/
theorem ensureService_steps (env : Env σ) (xdb : Xdb) :
    AllSteps (fun st => (∃ r, st = Step.findService xdb r) ∨
      (∃ r, st = Step.exec (.createService xdb) r) ∨ st.isEvent = true)
      (ensureService env xdb) := by
  unfold ensureService
  repeat' first
    | exact allSteps_ret _
    | (refine allSteps_event ?_; simp [Step.isEvent])
    | (refine allSteps_findService (fun _ => ?_); simp)
    | (refine allSteps_exec (fun _ => ?_); simp)
    | refine allSteps_seq ?_ (fun _ => ?_)
    | dsimp only
    | split

/-- `ensureBackupScheduler` only starts or stops the schedule and records events. -/
theorem ensureBackupScheduler_steps (env : Env σ) (xdb : Xdb) :
    AllSteps (fun st => (∃ sch r, st = Step.exec (.scheduleBackup xdb xdb.ObjectMeta sch) r) ∨
      (∃ r, st = Step.exec (.stopBackupScheduling xdb.ObjectMeta) r) ∨ st.isEvent = true)
      (ensureBackupScheduler env xdb) := by
  unfold ensureBackupScheduler
  repeat' first
    | exact allSteps_ret _
    | (refine allSteps_event ?_; simp [Step.isEvent])
    | (refine allSteps_exec (fun _ => ?_); simp)
    | refine allSteps_seq ?_ (fun _ => ?_)
    | dsimp only
    | split

/-- The restore only takes restore steps and records events. -/
theorem initializeDb_steps (env : Env σ) (xdb : Xdb) (src : SnapshotSourceSpec) :
    AllSteps (fun st => st.isInfra = true ∨ st.isEvent = true) (initializeDb env xdb src) := by
  unfold initializeDb
  repeat' first
    | exact allSteps_ret _
    | (refine allSteps_event ?_; simp [Step.isEvent])
    | (refine allSteps_exec (fun _ => ?_); simp [Step.isInfra])
    | (refine allSteps_snapshotGet (fun _ => ?_); simp [Step.isInfra])
    | (refine allSteps_newOSMSecret (fun _ => ?_); simp [Step.isInfra])
    | (refine allSteps_createRestoreJob (fun _ => ?_); simp [Step.isInfra])
    | (refine allSteps_checkDatabaseRestoreJob (fun _ => ?_); simp [Step.isInfra])
    | refine allSteps_seq ?_ (fun _ => ?_)
    | dsimp only
    | split

/-- `ensureStatefulSet` only takes infrastructure steps, patches the status and records
events. -/
theorem ensureStatefulSet_steps (env : Env σ) (xdb : Xdb) :
    AllSteps (fun st => st.isInfra = true ∨ st.isEvent = true ∨
      ∃ p r, st = Step.exec (.tryPatchXdb xdb.ObjectMeta p) r) (ensureStatefulSet env xdb) := by
  unfold ensureStatefulSet
  repeat' first
    | exact allSteps_ret _
    | (refine allSteps_event ?_; simp [Step.isEvent])
    | (refine allSteps_exec (fun _ => ?_); simp [Step.isInfra])
    | (refine allSteps_findStatefulSet (fun _ => ?_); simp [Step.isInfra])
    | (refine allSteps_createStatefulSet (fun _ => ?_); simp [Step.isInfra])
    | exact allSteps_mono (fun st h => h.elim Or.inl (fun h => Or.inr (Or.inl h)))
        (initializeDb_steps env xdb _)
    | refine allSteps_seq ?_ (fun _ => ?_)
    | dsimp only
    | split

/-- The only record `pause` hands to the store for creation is `dormantRecord` of the paused
resource. -/
theorem pause_steps (env : Env σ) (xdb : Xdb) :
    AllSteps (fun st => ∀ d r, st = Step.exec (.dormantCreate d) r → d = dormantRecord env xdb)
      (pause env xdb) := by
  unfold pause createDormantDatabase
  repeat' first
    | exact allSteps_ret _
    | (refine allSteps_event ?_; simp)
    | (refine allSteps_exec (fun _ => ?_); simp)
    | refine allSteps_seq ?_ (fun _ => ?_)
    | dsimp only
    | split

end Steps

/-! ## The Spec Matcher -/

section Matcher

variable {σ : Type}

/-- C2. `matchDormantDatabase` returns `(false, nil)` exactly when the store reports that no
DormantDatabase of the candidate's name exists; whenever it returns false for any other reason
the error is non-nil; and it never returns true together with an error. -/
theorem matchDormantDatabase_error_contract (env : Env σ) (xdb : Xdb) (s : σ) :
    (((matchDormantDatabase env xdb).run s).val = (false, none) ↔
      ∃ e, (env.dormantGet xdb.ObjectMeta.Namespace xdb.ObjectMeta.Name s).1 = .err e ∧
        e.notFound = true) ∧
    (((matchDormantDatabase env xdb).run s).val.1 = false →
      (¬ ∃ e, (env.dormantGet xdb.ObjectMeta.Namespace xdb.ObjectMeta.Name s).1 = .err e ∧
        e.notFound = true) →
      ((matchDormantDatabase env xdb).run s).val.2 ≠ none) ∧
    (((matchDormantDatabase env xdb).run s).val.1 = true →
      ((matchDormantDatabase env xdb).run s).val.2 = none) := by
  unfold matchDormantDatabase
  simp only [run_bind, dormantGet]
  cases h : (env.dormantGet xdb.ObjectMeta.Namespace xdb.ObjectMeta.Name s).1 with
  | err e =>
    cases hn : e.notFound <;> simp [hn]
  | ok d =>
    simp only [ne_eq, ite_not]
    split_ifs <;> (try split) <;> (try split_ifs) <;> simp

/-- C1 (as amended). `matchDormantDatabase` returns true exactly when a DormantDatabase of the
candidate's name exists in its namespace, its database-kind label is the Xdb kind, its InitSpec
annotation is absent or empty or else parses and, if the candidate specifies an `Init`, is
equal to it, and the candidate's normalized spec equals the preserved origin spec. -/
theorem matchDormantDatabase_true_iff (env : Env σ) (xdb : Xdb) (s : σ) :
    ((matchDormantDatabase env xdb).run s).val.1 = true ↔
      ∃ d, (env.dormantGet xdb.ObjectMeta.Namespace xdb.ObjectMeta.Name s).1 = .ok d ∧
        mapIndex d.ObjectMeta.Labels LabelDatabaseKind = ResourceKindXdb ∧
        (mapIndex d.ObjectMeta.Annotations XdbInitSpec = "" ∨
          ∃ p, env.unmarshalInitSpec (mapIndex d.ObjectMeta.Annotations XdbInitSpec) = .ok p ∧
            (xdb.Spec.Init = none ∨ p = xdb.Spec.Init)) ∧
        d.Spec.Origin.Spec.Xdb = some (normalizedSpec xdb.ObjectMeta.Name xdb.Spec) := by
  unfold matchDormantDatabase
  simp only [run_bind, dormantGet]
  cases h : (env.dormantGet xdb.ObjectMeta.Namespace xdb.ObjectMeta.Name s).1 with
  | err e =>
    cases hn : e.notFound <;> simp [hn]
  | ok d =>
    simp only [ne_eq, ite_not, normalizedSpec]
    cases hsec : xdb.Spec.DatabaseSecret <;>
      simp only [Option.getD_none, Option.getD_some, reduceCtorEq, if_true, if_false] <;>
      split_ifs <;> (try split) <;> (try split_ifs) <;> simp_all

/-- C1 (counterexample). A dormant record of `db1` carries the InitSpec annotation of `snap1`,
the candidate `db1` has no `Init`, and everything else agrees: `matchDormantDatabase` returns
true although the annotation's InitSpec is not equal to the candidate's `Init`. -/
theorem matchDormantDatabase_init_counterexample :
    ((matchDormantDatabase
        (scriptedEnv allOk
          (.ok (dormantDb1 (some (normalizedSpec "db1" plainSpec)) none
            (some (AList.singleton XdbInitSpec snap1Json))))
          false snap1Decode)
        (db1 plainSpec none)).run ()).val = (true, none) ∧
    ¬ (mapFind (dormantDb1 (some (normalizedSpec "db1" plainSpec)) none
          (some (AList.singleton XdbInitSpec snap1Json))).ObjectMeta.Annotations XdbInitSpec
            = none ∨
        ∃ p, snap1Decode (mapIndex (dormantDb1 (some (normalizedSpec "db1" plainSpec)) none
          (some (AList.singleton XdbInitSpec snap1Json))).ObjectMeta.Annotations XdbInitSpec)
            = .ok p ∧ p = (db1 plainSpec none).Spec.Init) := by
  constructor
  · decide
  · rintro (h | ⟨p, hp, hpe⟩)
    · exact absurd h (by decide)
    · subst hpe
      exact absurd hp (by decide)

end Matcher

/-! ## Resume -/

section Resume

variable {σ : Type}

/-- Copying a list of entries with distinct keys into a map: a copied key reads the copied
value, any other key reads what it read before. -/
theorem lookup_foldl_insert (k : String) :
    ∀ (l : List (Sigma fun _ : String => String)), l.NodupKeys → ∀ dst : StrMap,
      (l.foldl (fun acc e => acc.insert e.1 e.2) dst).lookup k =
        match l.dlookup k with
        | some v => some v
        | none => dst.lookup k
  | [], _, dst => by simp
  | e :: l, hl, dst => by
    have hnd := (List.nodupKeys_cons.mp hl)
    rw [List.foldl_cons, lookup_foldl_insert k l hnd.2]
    by_cases hk : k = e.1
    · subst hk
      have hnone : l.dlookup e.1 = none := List.dlookup_eq_none.mpr hnd.1
      obtain ⟨a, b⟩ := e
      simp [hnone, List.dlookup_cons_eq, AList.lookup_insert]
    · rw [List.dlookup_cons_ne l e hk, AList.lookup_insert_ne hk]

/-- What the copy loop of `ResumeDatabase` leaves under each key. -/
theorem lookup_copyInto (dst : StrMap) (src : Option StrMap) (k : String) :
    (copyInto dst src).lookup k =
      match mapFind src k with
      | some v => some v
      | none => dst.lookup k := by
  cases src with
  | none => rfl
  | some m => exact lookup_foldl_insert k m.entries m.nodupKeys dst

/-- C7. `ResumeDatabase` returns the rejection error without any create call exactly when the
preserved origin spec has an `Init`; when the origin spec has no `Init` it makes exactly one
create call and returns that call's error result unchanged. -/
theorem ResumeDatabase_reject_or_create (env : Env σ) (d : DormantDatabase) (s : σ) :
    ((∃ m, ResumeDatabase env d = some m ∧
        (m.run s).val = some (errorsNew "do not support InitSpec in spec.origin.xdb") ∧
        ∀ x r, Step.exec (.xdbCreate x) r ∉ (m.run s).log) ↔
      ∃ spec, d.Spec.Origin.Spec.Xdb = some spec ∧ spec.Init ≠ none) ∧
    (∀ spec, d.Spec.Origin.Spec.Xdb = some spec → spec.Init = none →
      ∃ m x, ResumeDatabase env d = some m ∧
        (m.run s).log = [Step.exec (.xdbCreate x) (env.exec (.xdbCreate x) s).1] ∧
        (m.run s).val = (env.exec (.xdbCreate x) s).1) := by
  unfold ResumeDatabase
  cases hspec : d.Spec.Origin.Spec.Xdb with
  | none => simp [hspec]
  | some spec =>
    cases hinit : spec.Init with
    | none => simp [hspec, hinit]
    | some i => simp [hspec, hinit]

/-- C8. When the origin spec has no `Init`, the resource that `ResumeDatabase` submits for
creation has the origin's name, namespace and labels, the origin spec, and a non-nil annotation
map whose keys are those of the origin and of the dormant record, a key of the dormant record
carrying the dormant record's value and every other key the origin's. -/
theorem ResumeDatabase_submitted_resource (env : Env σ) (d : DormantDatabase) (spec : XdbSpec)
    (s : σ) (hspec : d.Spec.Origin.Spec.Xdb = some spec) (hinit : spec.Init = none) :
    ∃ m x, ResumeDatabase env d = some m ∧
      (m.run s).log = [Step.exec (.xdbCreate x) (env.exec (.xdbCreate x) s).1] ∧
      x.ObjectMeta.Name = d.Spec.Origin.ObjectMeta.Name ∧
      x.ObjectMeta.Namespace = d.Spec.Origin.ObjectMeta.Namespace ∧
      x.ObjectMeta.Labels = d.Spec.Origin.ObjectMeta.Labels ∧
      x.Spec = spec ∧
      x.ObjectMeta.Annotations ≠ none ∧
      (∀ k, (mapFind x.ObjectMeta.Annotations k).isSome ↔
        ((mapFind d.Spec.Origin.ObjectMeta.Annotations k).isSome ∨
          (mapFind d.ObjectMeta.Annotations k).isSome)) ∧
      (∀ k v, mapFind d.ObjectMeta.Annotations k = some v →
        mapFind x.ObjectMeta.Annotations k = some v) ∧
      (∀ k, mapFind d.ObjectMeta.Annotations k = none →
        mapFind x.ObjectMeta.Annotations k = mapFind d.Spec.Origin.ObjectMeta.Annotations k) := by
  unfold ResumeDatabase
  simp only [hspec, hinit, ne_eq, not_true_eq_false, if_false]
  refine ⟨_, _, rfl, rfl, rfl, rfl, rfl, rfl, by simp, ?_, ?_, ?_⟩
  · intro k
    simp only [mapFind, lookup_copyInto]
    cases hk : mapFind d.ObjectMeta.Annotations k <;>
      cases hann : d.Spec.Origin.ObjectMeta.Annotations <;> simp_all [mapFind]
  · intro k v hk
    show AList.lookup k (copyInto _ _) = _
    rw [lookup_copyInto, hk]
  · intro k hk
    show AList.lookup k (copyInto _ _) = _
    rw [lookup_copyInto, hk]
    cases hann : d.Spec.Origin.ObjectMeta.Annotations <;> simp [mapFind]

end Resume

/-! ## Validation failure -/

section Validation

variable {σ : Type}

/-- C9. `create` asks the validator right after its status patch. If the validator, asked in
the state that patch leaves, rejects the resource with an error, then `create` takes no
governing-service, Service, StatefulSet, restore, backup-schedule or monitor step, neither
consults nor modifies a DormantDatabase and, the status patch having succeeded, returns the
validator's error. `update` asks the validator first. If the validator, asked in the state
`update` starts from, rejects the new resource with an error, then `update` returns that error
and takes none of those infrastructure steps. -/
theorem validation_failure_aborts (env : Env σ) (oldXdb xdb : Xdb) (e : KErr) (s : σ) :
    ((env.exec (.validateXdb xdb)
        (env.exec (.tryPatchXdb xdb.ObjectMeta .creating) s).2).1 = some e →
      (∀ st ∈ ((create env xdb).run s).log, st.isInfra = false ∧ st.touchesDormant = false) ∧
      ((env.exec (.tryPatchXdb xdb.ObjectMeta .creating) s).1 = none →
        ((create env xdb).run s).val.1 = some e)) ∧
    ((env.exec (.validateXdb xdb) s).1 = some e →
      ((update env oldXdb xdb).run s).val = some e ∧
      ∀ st ∈ ((update env oldXdb xdb).run s).log, st.isInfra = false) := by
  constructor
  · intro h
    unfold create
    simp only [run_bind, run_exec]
    cases h1 : (env.exec (.tryPatchXdb xdb.ObjectMeta .creating) s).1 with
    | some err =>
      simp only [run_bind, run_pure, run_event]
      simp [Step.isInfra, Step.touchesDormant]
    | none =>
      simp only [h, run_bind, run_exec, run_pure, run_event]
      simp [h1, Step.isInfra, Step.touchesDormant]
  · intro h
    unfold update
    simp only [h, run_bind, run_exec, run_pure, run_event]
    simp [Step.isInfra]

end Validation

/-! ## Create on top of a matching dormant record -/

section Matched

variable {σ : Type}

/-- C6. Let the status patch succeed, let the validator, asked in the state that patch leaves,
accept the resource, let `matchDormantDatabase`, run in the state the validation leaves, return
true, and let the store, asked in the states that follow, carry out the delete of the resource
and the patch of the DormantDatabase. Then `create` returns success, leaves the resource object
marked with the sole annotation `kubedb.com/ignore`, issues, after the status patch and the
validation, exactly the delete of the resource and the patch of the same-named DormantDatabase
that sets `Spec.Resume` to true, and takes no infrastructure step. -/
theorem create_matched_resumes (env : Env σ) (xdb : Xdb) (s : σ)
    (hpatch : (env.exec (.tryPatchXdb xdb.ObjectMeta .creating) s).1 = none)
    (hval : (env.exec (.validateXdb xdb)
      (env.exec (.tryPatchXdb xdb.ObjectMeta .creating) s).2).1 = none)
    (hmatch : ((matchDormantDatabase env xdb).run (stateAtMatch env xdb s)).val = (true, none))
    (hdel : (env.exec (.xdbDelete xdb.ObjectMeta.Namespace xdb.ObjectMeta.Name)
      (stateAfterMatch env xdb s)).1 = none)
    (hres : (env.exec (.tryPatchDormantDatabase
        { xdb.ObjectMeta with Annotations := some (AList.singleton ignoreKey "") } .resume)
      (env.exec (.xdbDelete xdb.ObjectMeta.Namespace xdb.ObjectMeta.Name)
        (stateAfterMatch env xdb s)).2).1 = none) :
    ((create env xdb).run s).val.1 = none ∧
    ((create env xdb).run s).val.2 =
      { xdb with ObjectMeta :=
          { xdb.ObjectMeta with Annotations := some (AList.singleton ignoreKey "") } } ∧
    ((create env xdb).run s).log.filter Step.isExec =
      [Step.exec (.tryPatchXdb xdb.ObjectMeta .creating) none,
        Step.exec (.validateXdb xdb) none,
        Step.exec (.xdbDelete xdb.ObjectMeta.Namespace xdb.ObjectMeta.Name) none,
        Step.exec (.tryPatchDormantDatabase
          { xdb.ObjectMeta with Annotations := some (AList.singleton ignoreKey "") } .resume)
          none] ∧
    (∀ d, (DormantPatch.resume.apply d).Spec.Resume = true ∧
      (DormantPatch.resume.apply d).ObjectMeta = d.ObjectMeta) ∧
    ∀ st ∈ ((create env xdb).run s).log, st.isInfra = false := by
  have hm := matchDormantDatabase_steps env xdb (stateAtMatch env xdb s)
  unfold stateAfterMatch at hdel hres
  unfold stateAtMatch at hmatch hm hdel hres
  unfold create
  simp only [run_bind, run_exec]
  rcases h1 : env.exec (.tryPatchXdb xdb.ObjectMeta .creating) s with ⟨r1, s1⟩
  simp only [h1] at hpatch hval hmatch hm hdel hres ⊢
  subst hpatch
  simp only [run_bind, run_exec]
  rcases h2 : env.exec (.validateXdb xdb) s1 with ⟨r2, s2⟩
  simp only [h2] at hval hmatch hm hdel hres ⊢
  subst hval
  simp only [run_bind, run_event]
  rcases h3 : (matchDormantDatabase env xdb).run s2 with ⟨v, s3, lg⟩
  simp only [h3] at hmatch hm hdel hres ⊢
  subst hmatch
  simp only [run_bind, run_exec]
  rcases h4 : env.exec (.xdbDelete xdb.ObjectMeta.Namespace xdb.ObjectMeta.Name) s3
    with ⟨r4, s4⟩
  simp only [h4] at hdel hres ⊢
  subst hdel
  simp only [run_bind, run_exec]
  rcases h5 : env.exec (.tryPatchDormantDatabase
    { xdb.ObjectMeta with Annotations := some (AList.singleton ignoreKey "") } .resume) s4
    with ⟨r5, s5⟩
  simp only [h5] at hres ⊢
  subst hres
  have hlg : lg.filter Step.isExec = [] := by
    rw [List.filter_eq_nil_iff]
    intro st hst
    rcases hm st hst with ⟨r, rfl⟩ | h
    · simp [Step.isExec]
    · simp [isExec_of_isEvent h]
  refine ⟨rfl, rfl, ?_, fun d => ⟨rfl, rfl⟩, ?_⟩
  · simp [List.filter_append, hlg, Step.isExec]
  · intro st hst
    simp only [run_pure, List.append_nil, List.mem_append, List.mem_singleton] at hst
    rcases hst with rfl | rfl | rfl | hst | rfl | rfl
    any_goals rfl
    rcases hm st hst with ⟨r, rfl⟩ | h
    · rfl
    · exact isInfra_of_isEvent h

end Matched

/-! ## Phase sequence of a create cycle -/

section Phases

variable {σ : Type}

/-- The phase a closure writes is the phase the stored resource has after the patch. -/
theorem XdbPatch.apply_phase (now : Nat) (p : XdbPatch) (x : Xdb) :
    (p.apply now x).Status.Phase = some p.phase := by
  cases p <;> rfl

/-- An event patches no phase. -/
theorem patchedPhase_of_isEvent {st : Step} (h : st.isEvent = true) : st.patchedPhase = none := by
  cases st <;> simp [Step.isEvent, Step.patchedPhase] at h ⊢

/-- An infrastructure step patches no phase. -/
theorem patchedPhase_of_isInfra {st : Step} (h : st.isInfra = true) : st.patchedPhase = none := by
  cases st with
  | exec c r => cases c <;> simp [Step.isInfra, Step.patchedPhase] at h ⊢
  | _ => simp [Step.patchedPhase]

/-- A log none of whose steps patches a phase. -/
theorem phasesPatched_eq_nil {log : List Step} (h : ∀ st ∈ log, st.patchedPhase = none) :
    phasesPatched log = [] := by
  unfold phasesPatched
  rw [List.filterMap_eq_nil_iff]
  exact h

/-- When `ensureStatefulSet` succeeds after finding no StatefulSet, it patches `Initializing`
if the spec names a snapshot source, and then `Running`. -/
theorem ensureStatefulSet_phases (env : Env σ) (xdb : Xdb) (s : σ)
    (hret : ((ensureStatefulSet env xdb).run s).val = none)
    (hss : Step.findStatefulSet xdb (.ok false) ∈ ((ensureStatefulSet env xdb).run s).log) :
    phasesPatched ((ensureStatefulSet env xdb).run s).log =
      (if (xdb.Spec.Init.bind InitSpec.SnapshotSource).isSome then [DatabasePhase.Initializing]
        else []) ++ [DatabasePhase.Running] := by
  unfold ensureStatefulSet at hret hss ⊢
  simp only [run_bind, run_findStatefulSet] at hret hss ⊢
  rcases h1 : env.findStatefulSet xdb s with ⟨r1, s1⟩
  simp only [h1] at hret hss ⊢
  cases r1 with
  | err e => simp at hret
  | ok found =>
    cases found with
    | true => simp at hss
    | false =>
      simp only [Bool.false_eq_true, if_false, run_bind, run_pure, run_createStatefulSet]
        at hret ⊢
      rcases h2 : env.createStatefulSet xdb s1 with ⟨r2, s2⟩
      simp only [h2] at hret ⊢
      cases r2 with
      | err e => simp at hret
      | ok ss =>
        simp only [run_bind, run_exec] at hret ⊢
        rcases h3 : env.exec (.checkStatefulSetPodStatus ss env.durationCheckStatefulSet) s2
          with ⟨r3, s3⟩
        simp only [h3] at hret ⊢
        cases r3 with
        | some e => simp at hret
        | none =>
          simp only [run_bind, run_event] at hret ⊢
          cases hinit : xdb.Spec.Init.bind InitSpec.SnapshotSource with
          | none =>
            simp only [hinit, run_bind, run_pure, run_exec] at hret ⊢
            rcases h4 : env.exec (.tryPatchXdb xdb.ObjectMeta .running) s3 with ⟨r4, s4⟩
            simp only [h4] at hret ⊢
            cases r4 with
            | some e => simp at hret
            | none => simp [phasesPatched, Step.patchedPhase, XdbPatch.phase]
          | some src =>
            simp only [hinit, run_bind, run_exec] at hret ⊢
            rcases h4 : env.exec (.tryPatchXdb xdb.ObjectMeta .initializing) s3 with ⟨r4, s4⟩
            simp only [h4] at hret ⊢
            cases r4 with
            | some e => simp at hret
            | none =>
              have hi := initializeDb_steps env xdb src s4
              simp only [run_bind] at hret ⊢
              rcases h5 : (initializeDb env xdb src).run s4 with ⟨r5, s5, lg⟩
              simp only [h5] at hret hi ⊢
              have hlg : phasesPatched lg = [] :=
                phasesPatched_eq_nil (fun st hst => (hi st hst).elim patchedPhase_of_isInfra
                  patchedPhase_of_isEvent)
              cases r5 with
              | some e =>
                simp only [run_bind, run_pure, run_event, run_exec] at hret ⊢
                rcases h6 : env.exec (.tryPatchXdb xdb.ObjectMeta .running) s5 with ⟨r6, s6⟩
                simp only [h6] at hret ⊢
                cases r6 with
                | some e => simp at hret
                | none =>
                  unfold phasesPatched at hlg ⊢
                  simp [hlg, Step.patchedPhase, XdbPatch.phase]
              | none =>
                simp only [run_bind, run_pure, run_event, run_exec] at hret ⊢
                rcases h6 : env.exec (.tryPatchXdb xdb.ObjectMeta .running) s5 with ⟨r6, s6⟩
                simp only [h6] at hret ⊢
                cases r6 with
                | some e => simp at hret
                | none =>
                  unfold phasesPatched at hlg ⊢
                  simp [hlg, Step.patchedPhase, XdbPatch.phase]

/-- C5 (as amended). When the resource passes validation, has no matching dormant record,
`create` returns without error and the StatefulSet lookup made by `create` reports that none
exists yet, the phases `create` patches are exactly `Creating`, then `Initializing` if and only
if the spec names a snapshot source, then `Running`. -/
theorem create_phase_sequence (env : Env σ) (xdb : Xdb) (s : σ)
    (hval : Step.exec (.validateXdb xdb) none ∈ ((create env xdb).run s).log)
    (hmatch : ((matchDormantDatabase env xdb).run (stateAtMatch env xdb s)).val = (false, none))
    (hret : ((create env xdb).run s).val.1 = none)
    (hss : Step.findStatefulSet xdb (.ok false) ∈ ((create env xdb).run s).log) :
    phasesPatched ((create env xdb).run s).log =
      DatabasePhase.Creating ::
        ((if (xdb.Spec.Init.bind InitSpec.SnapshotSource).isSome then [DatabasePhase.Initializing]
          else []) ++ [DatabasePhase.Running]) := by
  have hm := matchDormantDatabase_steps env xdb (stateAtMatch env xdb s)
  unfold stateAtMatch at hmatch hm
  unfold create at hval hret hss ⊢
  simp only [run_bind, run_exec] at hval hret hss ⊢
  rcases h1 : env.exec (.tryPatchXdb xdb.ObjectMeta .creating) s with ⟨r1, s1⟩
  simp only [h1] at hval hret hss hmatch hm ⊢
  cases r1 with
  | some err => simp at hret
  | none =>
    simp only [run_bind, run_exec] at hval hret hss ⊢
    rcases h2 : env.exec (.validateXdb xdb) s1 with ⟨r2, s2⟩
    simp only [h2] at hval hret hss hmatch hm ⊢
    cases r2 with
    | some err => simp at hret
    | none =>
      simp only [run_bind, run_event] at hret hss ⊢
      rcases h3 : (matchDormantDatabase env xdb).run s2 with ⟨v, s3, lg3⟩
      simp only [h3] at hret hss hmatch hm ⊢
      subst hmatch
      have n3 : Step.findStatefulSet xdb (.ok false) ∉ lg3 := fun h => by
        rcases hm _ h with ⟨r, hr⟩ | hr <;> simp [Step.isEvent] at hr
      have p3 : phasesPatched lg3 = [] := phasesPatched_eq_nil (fun st hst => by
        rcases hm st hst with ⟨r, rfl⟩ | h
        · rfl
        · exact patchedPhase_of_isEvent h)
      simp only [run_bind, run_event, run_exec] at hret hss ⊢
      rcases h4 : env.exec (.createGoverningService env.GoverningService
        xdb.ObjectMeta.Namespace) s3 with ⟨r4, s4⟩
      simp only [h4] at hret hss ⊢
      cases r4 with
      | some err => simp at hret
      | none =>
        have hsvc := ensureService_steps env xdb s4
        simp only [run_bind] at hret hss ⊢
        rcases h5 : (ensureService env xdb).run s4 with ⟨r5, s5, lg5⟩
        simp only [h5] at hret hss hsvc ⊢
        have n5 : Step.findStatefulSet xdb (.ok false) ∉ lg5 := fun h => by
          rcases hsvc _ h with ⟨r, hr⟩ | ⟨r, hr⟩ | hr <;> simp [Step.isEvent] at hr
        have p5 : phasesPatched lg5 = [] := phasesPatched_eq_nil (fun st hst => by
          rcases hsvc st hst with ⟨r, rfl⟩ | ⟨r, rfl⟩ | h
          · rfl
          · rfl
          · exact patchedPhase_of_isEvent h)
        cases r5 with
        | some err => simp at hret
        | none =>
          have hph := ensureStatefulSet_phases env xdb s5
          simp only [run_bind] at hret hss ⊢
          rcases h6 : (ensureStatefulSet env xdb).run s5 with ⟨r6, s6, lg6⟩
          simp only [h6] at hret hss hph ⊢
          cases r6 with
          | some err => simp at hret
          | none =>
            have hb := ensureBackupScheduler_steps env xdb s6
            simp only [run_bind, run_event] at hss ⊢
            rcases h7 : (ensureBackupScheduler env xdb).run s6 with ⟨r7, s7, lg7⟩
            simp only [h7] at hss hb ⊢
            have n7 : Step.findStatefulSet xdb (.ok false) ∉ lg7 := fun h => by
              rcases hb _ h with ⟨sch, r, hr⟩ | ⟨r, hr⟩ | hr <;> simp [Step.isEvent] at hr
            have p7 : phasesPatched lg7 = [] := phasesPatched_eq_nil (fun st hst => by
              rcases hb st hst with ⟨sch, r, rfl⟩ | ⟨r, rfl⟩ | h
              · rfl
              · rfl
              · exact patchedPhase_of_isEvent h)
            unfold phasesPatched at p3 p5 p7 hph ⊢
            cases hmon : xdb.Spec.Monitor with
            | none =>
              simp only [hmon, ne_eq, not_true_eq_false, if_false, run_bind, run_pure,
                List.mem_append, List.mem_cons, List.mem_singleton, reduceCtorEq, false_or,
                or_false, List.not_mem_nil, n3, n5, n7] at hss ⊢
              simp [List.filterMap_append, p3, p5, p7, hph rfl hss, Step.patchedPhase,
                XdbPatch.phase]
            | some mon =>
              simp only [hmon, ne_eq, reduceCtorEq, not_false_eq_true, if_true, run_bind,
                run_exec] at hss ⊢
              rcases h8 : env.exec (.addMonitor xdb) s7 with ⟨r8, s8⟩
              simp only [h8] at hss ⊢
              cases r8 <;>
              · simp only [run_bind, run_pure, run_event,
                  List.mem_append, List.mem_cons, List.mem_singleton, reduceCtorEq, false_or,
                  or_false, List.not_mem_nil, n3, n5, n7] at hss ⊢
                simp [List.filterMap_append, p3, p5, p7, hph rfl hss, Step.patchedPhase,
                  XdbPatch.phase]

end Phases

/-! ## Pause -/

section Pause

variable {σ : Type}

/-- C4 (as amended). For a resource whose spec has `DoNotPause` set, `pause` never creates a
DormantDatabase; and unless the resource carries the `kubedb.com/ignore` annotation, the only
call `pause` makes is `reCreateXdb` on that same resource, whose result it returns. -/
theorem pause_doNotPause (env : Env σ) (xdb : Xdb) (s : σ)
    (hdnp : xdb.Spec.DoNotPause = true) :
    (∀ d r, Step.exec (.dormantCreate d) r ∉ ((pause env xdb).run s).log) ∧
    (mapFind xdb.ObjectMeta.Annotations ignoreKey = none →
      ((pause env xdb).run s).log.filter (fun st => !st.isEvent) =
        [Step.exec (.reCreateXdb xdb) (env.exec (.reCreateXdb xdb) s).1] ∧
      ((pause env xdb).run s).val = (env.exec (.reCreateXdb xdb) s).1) := by
  unfold pause
  cases hig : mapFind xdb.ObjectMeta.Annotations ignoreKey with
  | some val => simp
  | none =>
    simp only [hdnp, if_true, run_bind, run_event, run_exec]
    cases h1 : (env.exec (.reCreateXdb xdb) s).1 <;> simp [Step.isEvent]

end Pause

/-! ## Create, pause, resume -/

section RoundTrip

variable {σ : Type}

/-- The stored record and the Spec Matcher agree: the record `pause` stores for a resource
that names its database secret is matched by `matchDormantDatabase` for that same resource,
whenever the decoder of the surroundings reads back what their encoder writes. -/
theorem dormantRecord_matches (env : Env σ) (xdb : Xdb) (s : σ)
    (hsec : xdb.Spec.DatabaseSecret ≠ none)
    (hcodec : ∀ init, xdb.Spec.Init = some init →
      env.unmarshalInitSpec (env.marshalInitSpec init) = .ok (some init))
    (hget : (env.dormantGet xdb.ObjectMeta.Namespace xdb.ObjectMeta.Name s).1 =
      .ok (dormantRecord env xdb)) :
    ((matchDormantDatabase env xdb).run s).val = (true, none) := by
  have hk : mapIndex (dormantRecord env xdb).ObjectMeta.Labels LabelDatabaseKind =
      ResourceKindXdb := by
    simp [dormantRecord, mapIndex, ← AList.insert_empty]
  unfold matchDormantDatabase
  simp only [run_bind, run_dormantGet, hget, hk, ne_eq, not_true_eq_false, if_false, run_pure]
  cases hi : xdb.Spec.Init with
  | none => simp [dormantRecord, hi, mapIndex, hsec]
  | some init =>
    have ha : mapIndex (dormantRecord env xdb).ObjectMeta.Annotations XdbInitSpec =
        env.marshalInitSpec init := by
      simp [dormantRecord, mapIndex, hi, ← AList.insert_empty]
    simp only [ha]
    by_cases he : env.marshalInitSpec init = ""
    · simp [he, dormantRecord, hi, hsec]
    · simp [he, hcodec init hi, dormantRecord, hi, hsec]

end RoundTrip

/-! ## Wipe-out -/

section WipeOut

variable {σ : Type}

/-- C10. `WipeOutDatabase` builds the label set holding exactly the database kind (Xdb) and the
database name (the record's name), and issues the deletion of Snapshots and then that of
PersistentVolumeClaims, both in the dormant record's namespace and both with the selector that
`labels.SelectorFromSet` returns for that set. A failed snapshot deletion is returned without
attempting the other deletion, a failed claim deletion is returned, and no error is returned
exactly when both succeed. Where deleting already-absent resources is a no-op, an invocation
that follows a successful one returns no error either. -/
theorem WipeOutDatabase_contract (env : Env σ) (d : DormantDatabase) (s : σ) :
    ∃ labelMap : StrMap,
      labelMap.entries = [⟨LabelDatabaseKind, ResourceKindXdb⟩,
        ⟨LabelDatabaseName, d.ObjectMeta.Name⟩] ∧
      (∀ e, (env.exec (.deleteSnapshots d.ObjectMeta.Namespace
            (env.SelectorFromSet labelMap)) s).1 = some e →
        ((WipeOutDatabase env d).run s).val = some e ∧
        ((WipeOutDatabase env d).run s).log =
          [Step.exec (.deleteSnapshots d.ObjectMeta.Namespace (env.SelectorFromSet labelMap))
            (some e)]) ∧
      ((env.exec (.deleteSnapshots d.ObjectMeta.Namespace
            (env.SelectorFromSet labelMap)) s).1 = none →
        ((WipeOutDatabase env d).run s).val =
          (env.exec (.deletePersistentVolumeClaims d.ObjectMeta.Namespace
              (env.SelectorFromSet labelMap))
            (env.exec (.deleteSnapshots d.ObjectMeta.Namespace
              (env.SelectorFromSet labelMap)) s).2).1 ∧
        ((WipeOutDatabase env d).run s).log =
          [Step.exec (.deleteSnapshots d.ObjectMeta.Namespace (env.SelectorFromSet labelMap))
              none,
            Step.exec (.deletePersistentVolumeClaims d.ObjectMeta.Namespace
                (env.SelectorFromSet labelMap))
              (env.exec (.deletePersistentVolumeClaims d.ObjectMeta.Namespace
                  (env.SelectorFromSet labelMap))
                (env.exec (.deleteSnapshots d.ObjectMeta.Namespace
                  (env.SelectorFromSet labelMap)) s).2).1]) ∧
      (((WipeOutDatabase env d).run s).val = none ↔
        (env.exec (.deleteSnapshots d.ObjectMeta.Namespace
          (env.SelectorFromSet labelMap)) s).1 = none ∧
        (env.exec (.deletePersistentVolumeClaims d.ObjectMeta.Namespace
            (env.SelectorFromSet labelMap))
          (env.exec (.deleteSnapshots d.ObjectMeta.Namespace
            (env.SelectorFromSet labelMap)) s).2).1 = none) ∧
      (∀ absent : Cmd → σ → Prop, AbsentIsNoOp env absent →
        ((WipeOutDatabase env d).run s).val = none →
        ((WipeOutDatabase env d).run ((WipeOutDatabase env d).run s).st).val = none) := by
  refine ⟨AList.insert LabelDatabaseKind ResourceKindXdb
    (AList.singleton LabelDatabaseName d.ObjectMeta.Name), ?_, ?_, ?_, ?_, ?_⟩
  · simp [AList.insert_entries, List.kerase, LabelDatabaseKind, LabelDatabaseName]
  · intro e he
    simp [WipeOutDatabase, he]
  · intro he
    unfold WipeOutDatabase
    simp only [run_bind, run_exec, he]
    cases h2 : (env.exec (.deletePersistentVolumeClaims d.ObjectMeta.Namespace
      (env.SelectorFromSet (AList.insert LabelDatabaseKind ResourceKindXdb
        (AList.singleton LabelDatabaseName d.ObjectMeta.Name))))
      (env.exec (.deleteSnapshots d.ObjectMeta.Namespace
        (env.SelectorFromSet (AList.insert LabelDatabaseKind ResourceKindXdb
          (AList.singleton LabelDatabaseName d.ObjectMeta.Name)))) s).2).1 <;> simp
  · unfold WipeOutDatabase
    simp only [run_bind, run_exec]
    cases h1 : (env.exec (.deleteSnapshots d.ObjectMeta.Namespace
      (env.SelectorFromSet (AList.insert LabelDatabaseKind ResourceKindXdb
        (AList.singleton LabelDatabaseName d.ObjectMeta.Name)))) s).1 with
    | some e => simp
    | none =>
      simp only [run_bind, run_exec]
      cases h2 : (env.exec (.deletePersistentVolumeClaims d.ObjectMeta.Namespace
        (env.SelectorFromSet (AList.insert LabelDatabaseKind ResourceKindXdb
          (AList.singleton LabelDatabaseName d.ObjectMeta.Name))))
        (env.exec (.deleteSnapshots d.ObjectMeta.Namespace
          (env.SelectorFromSet (AList.insert LabelDatabaseKind ResourceKindXdb
            (AList.singleton LabelDatabaseName d.ObjectMeta.Name)))) s).2).1 <;> simp
  · intro absent laws hok
    unfold WipeOutDatabase at hok ⊢
    simp only [run_bind, run_exec] at hok ⊢
    generalize env.SelectorFromSet (AList.insert LabelDatabaseKind ResourceKindXdb
      (AList.singleton LabelDatabaseName d.ObjectMeta.Name)) = sel at hok ⊢
    have e1 := laws.established (.deleteSnapshots d.ObjectMeta.Namespace sel) s rfl
    rcases h1 : env.exec (.deleteSnapshots d.ObjectMeta.Namespace sel) s with ⟨r1, s1⟩
    simp only [h1] at hok e1 ⊢
    cases r1 with
    | some e => simp at hok
    | none =>
      simp only [run_bind, run_exec] at hok ⊢
      have e2 := laws.established (.deletePersistentVolumeClaims d.ObjectMeta.Namespace sel) s1
        rfl
      have p2 := laws.preserved (.deleteSnapshots d.ObjectMeta.Namespace sel)
        (.deletePersistentVolumeClaims d.ObjectMeta.Namespace sel) s1 rfl (e1 rfl)
      rcases h2 : env.exec (.deletePersistentVolumeClaims d.ObjectMeta.Namespace sel) s1
        with ⟨r2, s2⟩
      simp only [h2] at hok e2 p2 ⊢
      cases r2 with
      | some e => simp at hok
      | none =>
        have n1 := laws.noop (.deleteSnapshots d.ObjectMeta.Namespace sel) s2 rfl p2
        have n2 := laws.noop (.deletePersistentVolumeClaims d.ObjectMeta.Namespace sel) s2 rfl
          (e2 rfl)
        simp [n1, n2]

/-- In `flagEnv`, deleting what is absent is a no-op in the sense of `AbsentIsNoOp`. -/
theorem flagEnv_absentIsNoOp : AbsentIsNoOp flagEnv flagAbsent where
  established := by
    intro c s hc _
    cases c <;> simp [Cmd.isDeletion] at hc <;> simp [flagEnv, flagAbsent]
  preserved := by
    intro c c' s hc' h
    cases c' <;> simp [Cmd.isDeletion] at hc' <;> cases c <;>
      simp_all [flagEnv, flagAbsent]
  noop := by
    intro c s hc h
    obtain ⟨a, b⟩ := s
    cases c <;> simp [Cmd.isDeletion] at hc <;> simp_all [flagEnv, flagAbsent]

end WipeOut

/-! ## The statements at concrete inputs -/

section Instances

/-- C10 (witness). In `flagEnv`, wiping out a record whose snapshots and claims are present
succeeds, and so does wiping it out again. -/
theorem WipeOutDatabase_contract_witness :
    ((WipeOutDatabase flagEnv (dormantDb1 (some plainSpec) none none)).run (true, true)).val
      = none ∧
    ((WipeOutDatabase flagEnv (dormantDb1 (some plainSpec) none none)).run
      ((WipeOutDatabase flagEnv (dormantDb1 (some plainSpec) none none)).run
        (true, true)).st).val = none :=
  let ⟨_, _, _, _, _, h⟩ :=
    WipeOutDatabase_contract flagEnv (dormantDb1 (some plainSpec) none none) (true, true)
  ⟨by decide, h flagAbsent flagEnv_absentIsNoOp (by decide)⟩

/-- C9 (witness). The validator rejects `db1`: `create` returns the validator's error without
any infrastructure step, and so does `update` from an older version of `db1`. -/
theorem validation_failure_aborts_witness :
    ((create (scriptedEnv validationFails (.err notFoundErr) false noDecode)
      (db1 plainSpec none)).run ()).val.1 = some invalidErr ∧
    (∀ st ∈ ((create (scriptedEnv validationFails (.err notFoundErr) false noDecode)
      (db1 plainSpec none)).run ()).log, st.isInfra = false ∧ st.touchesDormant = false) ∧
    ((update (scriptedEnv validationFails (.err notFoundErr) false noDecode)
      (db1 { plainSpec with DoNotPause := true } none) (db1 plainSpec none)).run ()).val =
        some invalidErr ∧
    ∀ st ∈ ((update (scriptedEnv validationFails (.err notFoundErr) false noDecode)
      (db1 { plainSpec with DoNotPause := true } none) (db1 plainSpec none)).run ()).log,
      st.isInfra = false :=
  let h := validation_failure_aborts
    (scriptedEnv validationFails (.err notFoundErr) false noDecode)
    (db1 { plainSpec with DoNotPause := true } none) (db1 plainSpec none) invalidErr ()
  ⟨(h.1 rfl).2 rfl, (h.1 rfl).1, (h.2 rfl).1, (h.2 rfl).2⟩

/-- C8 (witness). The origin of `db1` carries annotations `a` and `b`, the dormant record `b`
and `c`: the resumed resource reads `a` from the origin and `b`, `c` from the dormant record. -/
theorem ResumeDatabase_submitted_resource_witness :
    ∃ m x, ResumeDatabase (scriptedEnv allOk (.err notFoundErr) false noDecode)
        (dormantDb1 (some plainSpec) (some (AList.insert "b" "2" (AList.singleton "a" "1")))
          (some (AList.insert "c" "4" (AList.singleton "b" "3")))) = some m ∧
      (m.run ()).log = [Step.exec (.xdbCreate x) none] ∧
      mapFind x.ObjectMeta.Annotations "a" = some "1" ∧
      mapFind x.ObjectMeta.Annotations "b" = some "3" ∧
      mapFind x.ObjectMeta.Annotations "c" = some "4" :=
  let ⟨m, x, h1, h2, _, _, _, _, _, _, h9, h10⟩ :=
    ResumeDatabase_submitted_resource (scriptedEnv allOk (.err notFoundErr) false noDecode)
      (dormantDb1 (some plainSpec) (some (AList.insert "b" "2" (AList.singleton "a" "1")))
        (some (AList.insert "c" "4" (AList.singleton "b" "3")))) plainSpec () rfl rfl
  ⟨m, x, h1, h2, (h10 "a" (by decide)).trans (by decide), h9 "b" "3" (by decide),
    h9 "c" "4" (by decide)⟩

/-- C7 (witness). The origin of `db1` has the plain spec, every call succeeds:
`ResumeDatabase` makes one create call and returns its result. -/
theorem ResumeDatabase_reject_or_create_witness :
    ∃ m x, ResumeDatabase (scriptedEnv allOk (.err notFoundErr) false noDecode)
        (dormantDb1 (some plainSpec) none none) = some m ∧
      (m.run ()).log = [Step.exec (.xdbCreate x) none] ∧ (m.run ()).val = none :=
  (ResumeDatabase_reject_or_create (scriptedEnv allOk (.err notFoundErr) false noDecode)
    (dormantDb1 (some plainSpec) none none) ()).2 plainSpec rfl rfl

/-- C6 (witness). `db1` comes with an annotation of its own, a dormant record of `db1` with the
normalized spec of `db1` exists and every call succeeds: `create` returns success, the
resource is left with the sole annotation `kubedb.com/ignore`, and no infrastructure step is
taken. -/
theorem create_matched_resumes_witness :
    ((create (scriptedEnv allOk
        (.ok (dormantDb1 (some (normalizedSpec "db1" plainSpec)) none none)) false noDecode)
      (db1 plainSpec (some (AList.singleton "team" "a")))).run ()).val =
        (none, db1 plainSpec (some (AList.singleton ignoreKey ""))) ∧
    ∀ st ∈ ((create (scriptedEnv allOk
        (.ok (dormantDb1 (some (normalizedSpec "db1" plainSpec)) none none)) false noDecode)
      (db1 plainSpec (some (AList.singleton "team" "a")))).run ()).log, st.isInfra = false :=
  let h := create_matched_resumes (scriptedEnv allOk
    (.ok (dormantDb1 (some (normalizedSpec "db1" plainSpec)) none none)) false noDecode)
    (db1 plainSpec (some (AList.singleton "team" "a"))) () rfl rfl (by decide) rfl rfl
  ⟨Prod.ext h.1 h.2.1, h.2.2.2.2⟩

/-- C5 (witness). `db1` names the snapshot `snap1`, no dormant record and no StatefulSet
exist, every call succeeds: the phases patched are `Creating`, `Initializing`, `Running`. -/
theorem create_phase_sequence_witness :
    phasesPatched ((create (scriptedEnv allOk (.err notFoundErr) false noDecode)
      (db1 { plainSpec with Init := some snap1Init } none)).run ()).log =
      [DatabasePhase.Creating, DatabasePhase.Initializing, DatabasePhase.Running] :=
  create_phase_sequence (scriptedEnv allOk (.err notFoundErr) false noDecode)
    (db1 { plainSpec with Init := some snap1Init } none) () (by decide) (by decide) (by decide)
    (by decide)

/-- C5 (counterexample). `db1` passes validation, has no dormant record, and its StatefulSet
already exists: `create` returns without error having patched `Creating` only. -/
theorem create_existing_statefulset_counterexample :
    Step.exec (.validateXdb (db1 plainSpec none)) none ∈
      ((create (scriptedEnv allOk (.err notFoundErr) true noDecode)
        (db1 plainSpec none)).run ()).log ∧
    ((matchDormantDatabase (scriptedEnv allOk (.err notFoundErr) true noDecode)
      (db1 plainSpec none)).run
        (stateAtMatch (scriptedEnv allOk (.err notFoundErr) true noDecode)
          (db1 plainSpec none) ())).val = (false, none) ∧
    ((create (scriptedEnv allOk (.err notFoundErr) true noDecode)
      (db1 plainSpec none)).run ()).val.1 = none ∧
    phasesPatched ((create (scriptedEnv allOk (.err notFoundErr) true noDecode)
      (db1 plainSpec none)).run ()).log = [DatabasePhase.Creating] := by
  refine ⟨by decide, by decide, by decide, by decide⟩

/-- C4 (witness). `db1` has `DoNotPause` set and no annotations: the only call of `pause` is
`reCreateXdb` on `db1`. -/
theorem pause_doNotPause_witness :
    (db1 { plainSpec with DoNotPause := true } none).Spec.DoNotPause = true ∧
    ((pause (scriptedEnv allOk (.err notFoundErr) false noDecode)
      (db1 { plainSpec with DoNotPause := true } none)).run ()).log.filter
        (fun st => !st.isEvent) =
      [Step.exec (.reCreateXdb (db1 { plainSpec with DoNotPause := true } none)) none] :=
  ⟨rfl, ((pause_doNotPause (scriptedEnv allOk (.err notFoundErr) false noDecode)
    (db1 { plainSpec with DoNotPause := true } none) () rfl).2 (by decide)).1⟩

/-- C4 (counterexample). `db1` has `DoNotPause` set and carries the `kubedb.com/ignore`
annotation: `pause` records one event and returns, without recreating the resource. -/
theorem pause_ignored_counterexample :
    (db1 { plainSpec with DoNotPause := true }
      (some (AList.singleton ignoreKey ""))).Spec.DoNotPause = true ∧
    ((pause (scriptedEnv allOk (.err notFoundErr) false noDecode)
      (db1 { plainSpec with DoNotPause := true } (some (AList.singleton ignoreKey "")))).run
        ()).log = [Step.event .Normal "Ignored" ""] ∧
    ((pause (scriptedEnv allOk (.err notFoundErr) false noDecode)
      (db1 { plainSpec with DoNotPause := true } (some (AList.singleton ignoreKey "")))).run
        ()).val = none := by
  refine ⟨rfl, by decide, by decide⟩

end Instances

end XdbController
